import Mathlib

/-!
Verification development for the PulseFM control plane.

The definitions below are a shallow embedding of the Python sources:

* `recordVoteAtomic` embeds the KV-VOTE Lua script of
  `packages/pulsefm-redis/pulsefm_redis/client.py` (also inlined in
  `functions/tally-function/main.py`),
* `tallyFunction` embeds `tally_function` of `functions/tally-function/main.py`,
* `submitVote` embeds `submit_vote` of `services/vote-api/pulsefm_vote_api/main.py`,
* `rotateSongTxn`, `selectReadySongCandidate`, `refreshNextSongTxn`,
  `closeCurrentVoteIfMatches`, `closeVoteDS`, `rotateVoteDS`, `pickWinner` and
  `tickEndpoint` embed the corresponding functions of
  `services/playback-service/pulsefm_playback_service/main.py`,
* `checkMarkerEvents`, `checkTimedEvents` and `streamIteration` embed the SSE
  loop of `services/playback-stream/pulsefm_playback_stream/main.py`.

Datastore documents become records with `Option` fields (a Python `None` /
missing key is `none`); Redis hashes and sets become association lists and
lists; the wall clock, freshly drawn UUIDs and the outcomes of
`random.choice` / `random.sample` become explicit parameters.
-/

set_option linter.unusedVariables false

/-- Python truthiness of an optional string: `None` and the empty string are falsy. -/
def strFalsy : Option String → Bool
  | none => true
  | some s => s = ""

/-- Redis state backing one poll: the VotedSet of sessionIds and the TallyMap hash. -/
structure PollKV where
  voted : List String
  tally : List (String × Int)
deriving Repr, DecidableEq

/-- Redis HINCRBY on an association-list hash: increment an existing field, or create it
with the given delta when absent. -/
def hincrby : List (String × Int) → String → Int → List (String × Int)
  | [], o, d => [(o, d)]
  | (k, v) :: rest, o, d =>
      if k = o then (k, v + d) :: rest else (k, v) :: hincrby rest o d

/-- Redis HEXISTS on an association-list hash. -/
def hexists (t : List (String × Int)) (o : String) : Bool :=
  t.any (fun p => p.1 = o)

/-- The KV-VOTE script (`VOTE_LUA` / `record_vote_atomic`): `SADD voted sessionId`;
if newly added, `HINCRBY tally option 1` and return 1, else return 0. -/
def recordVoteAtomic (kv : PollKV) (sessionId opt : String) : PollKV × Nat :=
  if sessionId ∈ kv.voted then (kv, 0)
  else ({ voted := kv.voted ++ [sessionId], tally := hincrby kv.tally opt 1 }, 1)

/-- Poll KV state right after the KV-OPEN script (`POLL_OPEN_LUA`): the tally hash holds
every declared option at 0 and the voted set is empty. -/
def initPollOpen (options : List String) : PollKV :=
  { voted := [], tally := options.map (fun o => (o, 0)) }

/-- Run a sequence of KV-VOTE executions, each event being (sessionId, option). -/
def runVotes : PollKV → List (String × String) → PollKV
  | kv, [] => kv
  | kv, (s, o) :: rest => runVotes (recordVoteAtomic kv s o).1 rest

/-- Number of KV-VOTE executions in the sequence that return 1 (admitted votes). -/
def successCount : PollKV → List (String × String) → Nat
  | _, [] => 0
  | kv, (s, o) :: rest =>
      (recordVoteAtomic kv s o).2 + successCount (recordVoteAtomic kv s o).1 rest

/-- Number of KV-VOTE executions in the sequence that return 1 and carry sessionId S. -/
def successesFor : PollKV → List (String × String) → String → Nat
  | _, [], _ => 0
  | kv, (s, o) :: rest, S =>
      (if (recordVoteAtomic kv s o).2 = 1 ∧ s = S then 1 else 0)
        + successesFor (recordVoteAtomic kv s o).1 rest S

/-- Sum of all counters in a tally hash. -/
def tallySum (t : List (String × Int)) : Int :=
  (t.map Prod.snd).sum

theorem mem_voted_recordVoteAtomic (kv : PollKV) (s o x : String)
    (hx : x ∈ kv.voted) : x ∈ (recordVoteAtomic kv s o).1.voted := by
  unfold recordVoteAtomic
  by_cases h : s ∈ kv.voted
  · simp [h, hx]
  · simp only [h, if_neg, if_false]
    exact List.mem_append.mpr (Or.inl hx)

theorem recordVoteAtomic_of_mem (kv : PollKV) (s o : String)
    (h : s ∈ kv.voted) : recordVoteAtomic kv s o = (kv, 0) := by
  unfold recordVoteAtomic
  simp [h]

theorem successesFor_eq_zero_of_mem (evs : List (String × String)) :
    ∀ (kv : PollKV) (S : String), S ∈ kv.voted → successesFor kv evs S = 0 := by
  induction evs with
  | nil => intro kv S _; rfl
  | cons ev rest ih =>
      intro kv S hS
      obtain ⟨s, o⟩ := ev
      by_cases hs : s = S
      · subst hs
        rw [successesFor, recordVoteAtomic_of_mem kv s o hS]
        simp [ih kv s hS]
      · rw [successesFor]
        have hmem : S ∈ (recordVoteAtomic kv s o).1.voted :=
          mem_voted_recordVoteAtomic kv s o S hS
        have : ¬ ((recordVoteAtomic kv s o).2 = 1 ∧ s = S) := fun h => hs h.2
        rw [if_neg this, ih _ S hmem]

theorem successesFor_le_one (evs : List (String × String)) :
    ∀ (kv : PollKV) (S : String), successesFor kv evs S ≤ 1 := by
  induction evs with
  | nil => intro kv S; exact Nat.zero_le 1
  | cons ev rest ih =>
      intro kv S
      obtain ⟨s, o⟩ := ev
      rw [successesFor]
      by_cases hcond : (recordVoteAtomic kv s o).2 = 1 ∧ s = S
      · rw [if_pos hcond]
        have hS : S ∈ (recordVoteAtomic kv s o).1.voted := by
          rcases hcond with ⟨hr, hs⟩
          subst hs
          unfold recordVoteAtomic at hr ⊢
          by_cases h : s ∈ kv.voted
          · simp [h] at hr
          · simp [h]
        rw [successesFor_eq_zero_of_mem rest _ S hS]
      · rw [if_neg hcond]
        simpa using ih (recordVoteAtomic kv s o).1 S

theorem voted_length_runVotes (evs : List (String × String)) :
    ∀ kv : PollKV, (runVotes kv evs).voted.length = kv.voted.length + successCount kv evs := by
  induction evs with
  | nil => intro kv; rfl
  | cons ev rest ih =>
      intro kv
      obtain ⟨s, o⟩ := ev
      rw [runVotes, successCount, ih]
      unfold recordVoteAtomic
      by_cases h : s ∈ kv.voted
      · simp [h]
      · simp [h, List.length_append]
        omega

theorem tallySum_hincrby (t : List (String × Int)) (o : String) (d : Int) :
    tallySum (hincrby t o d) = tallySum t + d := by
  induction t with
  | nil => simp [hincrby, tallySum]
  | cons p rest ih =>
      obtain ⟨k, v⟩ := p
      by_cases h : k = o
      · simp [hincrby, h, tallySum]
        ring
      · simp [hincrby, h, tallySum] at ih ⊢
        omega

theorem tallySum_runVotes (evs : List (String × String)) :
    ∀ kv : PollKV, tallySum (runVotes kv evs).tally = tallySum kv.tally + successCount kv evs := by
  induction evs with
  | nil => intro kv; simp [runVotes, successCount]
  | cons ev rest ih =>
      intro kv
      obtain ⟨s, o⟩ := ev
      rw [runVotes, successCount, ih]
      unfold recordVoteAtomic
      by_cases h : s ∈ kv.voted
      · simp [h]
      · simp [h, tallySum_hincrby]
        omega

theorem tallySum_initPollOpen (options : List String) :
    tallySum (initPollOpen options).tally = 0 := by
  unfold initPollOpen tallySum
  induction options with
  | nil => rfl
  | cons o rest ih => simpa using ih

/-- C1: for any poll and sessionId, at most one KV-VOTE execution for that sessionId
succeeds; a duplicate sessionId leaves the state (TallyMap included) unchanged and the
script returns 0; and starting from the KV-OPEN state, after any sequence of script
executions with N admitted votes the VotedSet has exactly N members and the tallies sum
to exactly N. -/
theorem kvVote_admission_invariants :
    (∀ (kv : PollKV) (evs : List (String × String)) (S : String), successesFor kv evs S ≤ 1)
    ∧ (∀ (kv : PollKV) (s o : String), s ∈ kv.voted → recordVoteAtomic kv s o = (kv, 0))
    ∧ (∀ (options : List String) (evs : List (String × String)),
        (runVotes (initPollOpen options) evs).voted.length
            = successCount (initPollOpen options) evs
        ∧ tallySum (runVotes (initPollOpen options) evs).tally
            = (successCount (initPollOpen options) evs : Int)) := by
  refine ⟨fun kv evs S => successesFor_le_one evs kv S,
         fun kv s o h => recordVoteAtomic_of_mem kv s o h,
         fun options evs => ⟨?_, ?_⟩⟩
  · rw [voted_length_runVotes]
    simp [initPollOpen]
  · rw [tallySum_runVotes, tallySum_initPollOpen]
    simp

/-- Concrete instantiation of `kvVote_admission_invariants`: session s1 has already voted,
so a second KV-VOTE for s1 leaves the state unchanged and returns 0. -/
theorem kvVote_admission_invariants_witness :
    recordVoteAtomic ⟨["s1"], [("a", 1)]⟩ "s1" "b" = (⟨["s1"], [("a", 1)]⟩, 0) :=
  kvVote_admission_invariants.2.1 ⟨["s1"], [("a", 1)]⟩ "s1" "b" (by decide)

/-- The currentSong block of the KV Snapshot (`_build_playback_snapshot`). -/
structure CurrentSongSnap where
  voteId : Option String
  startAt : Option Int
  endAt : Option Int
  durationMs : Option Int
deriving Repr, DecidableEq

/-- The nextSong block of the KV Snapshot. -/
structure NextSongSnap where
  voteId : Option String
  durationMs : Option Int
deriving Repr, DecidableEq

/-- The poll block of the KV Snapshot. -/
structure PollSnap where
  voteId : Option String
  options : List String
  version : Option Int
  status : Option String
  endAt : Option Int
deriving Repr, DecidableEq

/-- The KV Snapshot document stored at `pulsefm:playback:current`. -/
structure PlaybackSnapshot where
  currentSong : CurrentSongSnap
  nextSong : NextSongSnap
  poll : PollSnap
deriving Repr, DecidableEq

/-- The poll voteId seen through `(snapshot or {}).get("poll", {}).get("voteId")`. -/
def snapshotPollVoteId : Option PlaybackSnapshot → Option String
  | none => none
  | some snap => snap.poll.voteId

/-- Embedding of `tally_function` (`functions/tally-function/main.py`), on a POST request.
Inputs are the decoded JSON payload fields, the cached Snapshot read from KV and the
poll KV state for the submitted voteId; the result is the returned status string paired
with the poll KV state after the call. -/
def tallyFunction (snap : Option PlaybackSnapshot) (kv : PollKV)
    (voteId sessionId opt : Option String) : String × PollKV :=
  if strFalsy voteId ∨ strFalsy sessionId ∨ strFalsy opt then ("missing_fields", kv)
  else
    let v := voteId.getD ""
    let s := sessionId.getD ""
    let o := opt.getD ""
    if snapshotPollVoteId snap ≠ some v then ("vote_not_open", kv)
    else if ¬ hexists kv.tally o then ("invalid_option", kv)
    else
      let r := recordVoteAtomic kv s o
      if r.2 = 1 then ("ok", r.1) else ("duplicate", r.1)

/-- HTTP outcome of the vote API: 200 with a body, or an HTTPException status code. -/
inductive VoteApiResult where
  | ok
  | err (code : Nat) (detail : String)
deriving Repr, DecidableEq

/-- Embedding of `submit_vote` (`services/vote-api/pulsefm_vote_api/main.py`).
`session` is the sid claim of a verified session cookie (`none` when the cookie is
missing or invalid); `pollCurrent` is the value of the Redis key `pulsefm:poll:current`;
`tallyKeys` is HKEYS of the poll tally hash; `voted` is the VotedSet; `rateOk` is the
combined outcome of the fixed-window rate limiters (whose code lives outside this tree);
`enqueueOk` tells whether enqueueing the tally task succeeds. -/
def submitVote (session : Option String) (voteId opt : Option String)
    (pollCurrent : Option String) (tallyKeys : List String) (voted : List String)
    (rateOk : Bool) (enqueueOk : Bool) : VoteApiResult :=
  match session with
  | none => .err 401 "Missing session cookie"
  | some sid =>
      if strFalsy voteId then .err 400 "Missing voteId"
      else if strFalsy opt then .err 400 "Missing option"
      else
        let v := voteId.getD ""
        let o := opt.getD ""
        if strFalsy pollCurrent then .err 500 "Vote state unavailable"
        else if pollCurrent ≠ some v then .err 400 "Invalid voteId"
        else if tallyKeys = [] then .err 500 "Vote state unavailable"
        else if o ∉ tallyKeys then .err 400 "Invalid option"
        else if ¬ rateOk then .err 429 "rate_limited"
        else if sid ∈ voted then .err 409 "Duplicate vote"
        else if ¬ enqueueOk then .err 500 "Failed to enqueue vote"
        else .ok

/-- C2 counterexample: the Snapshot's poll v1 has status CLOSED, yet `tally_function`
admits the vote and answers ok, because neither it nor `submit_vote` ever consults the
poll status; this contradicts the claim that a vote is accepted only when the poll
status is OPEN and that a closed poll yields 409 at the HTTP layer. -/
theorem voteValidation_closed_poll_counterexample :
    tallyFunction
        (some { currentSong := ⟨some "song1", some 0, some 150000, some 150000⟩,
                nextSong := ⟨some "stubbed", some 150000⟩,
                poll := ⟨some "v1", ["a", "b"], some 1, some "CLOSED", some 90000⟩ })
        ⟨[], [("a", 0), ("b", 0)]⟩ (some "v1") (some "s1") (some "a")
      = ("ok", ⟨["s1"], [("a", 1), ("b", 0)]⟩) := by decide

/-- C2 amended: a vote is validated before KV-VOTE runs and is accepted exactly when the
Snapshot's poll.voteId equals the submitted voteId, the option is a field of the
TallyMap and the session has not voted yet — the poll status is never consulted; at the
HTTP layer POST /vote returns 400 for missing fields, a non-current voteId or an
invalid option, 409 for a duplicate vote, 500 when the KV poll state is unavailable, and
{status ok} on success. -/
theorem voteValidation_amended :
    (∀ (snap : PlaybackSnapshot) (kv : PollKV) (v s o : String),
        v ≠ "" → s ≠ "" → o ≠ "" →
        ((tallyFunction (some snap) kv (some v) (some s) (some o)).1 = "ok"
          ↔ snap.poll.voteId = some v ∧ hexists kv.tally o = true ∧ s ∉ kv.voted))
    ∧ (∀ (snap : PlaybackSnapshot) (st : Option String) (kv : PollKV)
          (voteId sessionId opt : Option String),
        tallyFunction (some { snap with poll := { snap.poll with status := st } })
            kv voteId sessionId opt
          = tallyFunction (some snap) kv voteId sessionId opt)
    ∧ (∀ sid keys voted rateOk enqueueOk (o : Option String) cur,
        submitVote (some sid) none o cur keys voted rateOk enqueueOk
          = .err 400 "Missing voteId")
    ∧ (∀ sid (v : String) (o : Option String) keys voted rateOk enqueueOk cur, v ≠ "" →
        submitVote (some sid) (some v) none cur keys voted rateOk enqueueOk
          = .err 400 "Missing option")
    ∧ (∀ sid (v o w : String) keys voted rateOk enqueueOk,
        v ≠ "" → o ≠ "" → w ≠ "" → w ≠ v →
        submitVote (some sid) (some v) (some o) (some w) keys voted rateOk enqueueOk
          = .err 400 "Invalid voteId")
    ∧ (∀ sid (v o : String) keys voted rateOk enqueueOk,
        v ≠ "" → o ≠ "" → keys ≠ [] → o ∉ keys →
        submitVote (some sid) (some v) (some o) (some v) keys voted rateOk enqueueOk
          = .err 400 "Invalid option")
    ∧ (∀ sid (v o : String) keys voted enqueueOk,
        v ≠ "" → o ≠ "" → keys ≠ [] → o ∈ keys → sid ∈ voted →
        submitVote (some sid) (some v) (some o) (some v) keys voted true enqueueOk
          = .err 409 "Duplicate vote")
    ∧ (∀ sid (v o : String) keys voted rateOk enqueueOk, v ≠ "" → o ≠ "" →
        submitVote (some sid) (some v) (some o) none keys voted rateOk enqueueOk
          = .err 500 "Vote state unavailable")
    ∧ (∀ sid (v o : String) keys voted, v ≠ "" → o ≠ "" →
        keys ≠ [] → o ∈ keys → sid ∉ voted →
        submitVote (some sid) (some v) (some o) (some v) keys voted true true = .ok) := by
  refine ⟨?_, ?_, ?_, ?_, ?_, ?_, ?_, ?_, ?_⟩
  · intro snap kv v s o hv hs ho
    unfold tallyFunction snapshotPollVoteId
    by_cases hvid : snap.poll.voteId = some v
    · by_cases hop : hexists kv.tally o
      · by_cases hdup : s ∈ kv.voted
        · simp [strFalsy, hv, hs, ho, hvid, hop, recordVoteAtomic, hdup]
        · simp [strFalsy, hv, hs, ho, hvid, hop, recordVoteAtomic, hdup]
      · simp [strFalsy, hv, hs, ho, hvid, hop]
    · simp [strFalsy, hv, hs, ho, hvid]
  · intro snap st kv voteId sessionId opt
    unfold tallyFunction snapshotPollVoteId
    rfl
  · intro sid keys voted rateOk enqueueOk o cur
    simp [submitVote, strFalsy]
  · intro sid v o keys voted rateOk enqueueOk cur hv
    simp [submitVote, strFalsy, hv]
  · intro sid v o w keys voted rateOk enqueueOk hv ho hw hne
    simp [submitVote, strFalsy, hv, ho, hw, hne]
  · intro sid v o keys voted rateOk enqueueOk hv ho hkeys hnot
    simp [submitVote, strFalsy, hv, ho, hkeys, hnot]
  · intro sid v o keys voted enqueueOk hv ho hkeys hmem hdup
    simp [submitVote, strFalsy, hv, ho, hkeys, hmem, hdup]
  · intro sid v o keys voted rateOk enqueueOk hv ho
    simp [submitVote, strFalsy, hv, ho]
  · intro sid v o keys voted hv ho hkeys hmem hdup
    simp [submitVote, strFalsy, hv, ho, hkeys, hmem, hdup]

/-- Concrete instantiation of `voteValidation_amended` on a one-option poll: a first
vote from a fresh session passes every check and is accepted. -/
theorem voteValidation_amended_witness :
    submitVote (some "sid1") (some "v1") (some "a") (some "v1") ["a"] [] true true
      = .ok :=
  voteValidation_amended.2.2.2.2.2.2.2.2 "sid1" "v1" "a" ["a"] []
    (by decide) (by decide) (by decide) (by decide) (by decide)

/-- A Song document in the songs collection. -/
structure Song where
  id : String
  status : Option String
  createdAt : Int
  durationMs : Option Int
deriving Repr, DecidableEq

/-- The next block of the StationRecord (the code writes both a `duration` and a
`durationMs` field and reads `durationMs or duration`). -/
structure StationNext where
  voteId : Option String
  duration : Option Int
  durationMs : Option Int
deriving Repr, DecidableEq

/-- The StationRecord document `stations/main`. -/
structure Station where
  voteId : Option String
  startAt : Option Int
  endAt : Option Int
  durationMs : Option Int
  version : Option Int
  next : Option StationNext
deriving Repr, DecidableEq

/-- Python `int(station.get("version") or 0)`: a missing or zero version reads as 0. -/
def stationVersion (st : Station) : Int :=
  st.version.getD 0

/-- Python `a or b` on optional integers: falls through when `a` is `None` or 0. -/
def pyOrInt : Option Int → Option Int → Option Int
  | some x, b => if x = 0 then b else some x
  | none, b => b

/-- Stable insertion step for the descending-createdAt ordering of the candidate query. -/
def insertByCreatedAtDesc (s : Song) : List Song → List Song
  | [] => [s]
  | t :: rest =>
      if t.createdAt ≤ s.createdAt then s :: t :: rest else t :: insertByCreatedAtDesc s rest

/-- Stable sort by createdAt descending (the `order_by createdAt DESCENDING` clause). -/
def sortByCreatedAtDesc : List Song → List Song
  | [] => []
  | s :: rest => insertByCreatedAtDesc s (sortByCreatedAtDesc rest)

/-- The candidate query of `_select_ready_song_candidate`: Songs with status ready,
ordered by createdAt descending, limit 10. -/
def queryReadyDesc (songs : List Song) : List Song :=
  (sortByCreatedAtDesc (songs.filter (fun s => s.status = some "ready"))).take 10

/-- A candidate dict as produced by `_select_ready_song_candidate` or the stubbed fallback. -/
structure Candidate where
  id : String
  duration : Int
  stubbed : Bool
deriving Repr, DecidableEq

/-- The loop-skip test `if current_vote_id and doc.id == current_vote_id`. -/
def skipsCandidate (cur : Option String) (s : Song) : Bool :=
  match cur with
  | none => false
  | some c => ¬ c = "" ∧ s.id = c

/-- The scan of `_select_ready_song_candidate` over the query results: skip the id that
is becoming current, skip docs with no durationMs, take the first remaining. -/
def selectFromDocs (cur : Option String) : List Song → Option Candidate
  | [] => none
  | doc :: rest =>
      if skipsCandidate cur doc then selectFromDocs cur rest
      else
        match doc.durationMs with
        | none => selectFromDocs cur rest
        | some d => some ⟨doc.id, d, false⟩

/-- Embedding of `_select_ready_song_candidate`. -/
def selectReadySongCandidate (songs : List Song) (cur : Option String) : Option Candidate :=
  selectFromDocs cur (queryReadyDesc songs)

/-- Firestore `transaction.update(songs_ref.document(id), {"status": st})` on our list model. -/
def updateSongStatus (songs : List Song) (id st : String) : List Song :=
  songs.map (fun s => if s.id = id then { s with status := some st } else s)

/-- Read one Song document by id. -/
def findSong (songs : List Song) (id : String) : Option Song :=
  songs.find? (fun s => s.id = id)

/-- The dataclass `SongRotationResult`. -/
structure SongRotationResult where
  startAt : Int
  endsAt : Int
  durationMs : Int
  voteId : String
  nextVoteId : String
  nextDurationMs : Int
  nextStubbed : Bool
  version : Int
deriving Repr, DecidableEq

/-- Embedding of the `_rotate_song` transaction: `.ok none` is the stale-version no-op,
`.error` a raised ValueError (surfaced as HTTP 500), `.ok (some _)` a commit returning
the new StationRecord, the new songs collection and the rotation result. -/
def rotateSongTxn (stationQ : Option Station) (songs : List Song) (requestVersion : Int)
    (now : Int) : Except String (Option (Station × List Song × SongRotationResult)) :=
  match stationQ with
  | none => .error "stations/main not found"
  | some station =>
      if requestVersion ≤ stationVersion station then .ok none
      else
        let nextData := station.next.getD ⟨none, none, none⟩
        match nextData.voteId, pyOrInt nextData.durationMs nextData.duration with
        | some currentVoteId, some durationMs =>
            let endsAt := now + durationMs
            let candQ := selectReadySongCandidate songs (some currentVoteId)
            let candE : Except String Candidate :=
              match candQ with
              | some c => .ok c
              | none =>
                  match findSong songs "stubbed" with
                  | none => .error "No ready song or stubbed song"
                  | some stubbedSong =>
                      match stubbedSong.durationMs with
                      | none => .error "Stubbed song missing fields"
                      | some d => .ok ⟨"stubbed", d, true⟩
            match candE with
            | .error e => .error e
            | .ok cand =>
                let station2 : Station :=
                  { voteId := some currentVoteId,
                    startAt := some now,
                    endAt := some endsAt,
                    durationMs := some durationMs,
                    version := some requestVersion,
                    next := some ⟨some cand.id, some cand.duration, some cand.duration⟩ }
                let songs2 :=
                  if currentVoteId ≠ "stubbed"
                  then updateSongStatus songs currentVoteId "played" else songs
                let songs3 :=
                  if ¬ cand.stubbed then updateSongStatus songs2 cand.id "queued" else songs2
                .ok (some (station2, songs3,
                  { startAt := now, endsAt := endsAt, durationMs := durationMs,
                    voteId := currentVoteId, nextVoteId := cand.id,
                    nextDurationMs := cand.duration, nextStubbed := cand.stubbed,
                    version := requestVersion }))
        | _, _ => .error "stations/main.next is missing fields"

/-- The PollState document `voteState/current` as built by `_build_vote` and rewritten by
`_close_vote` (the `createdAt` / `closedAt` server timestamps are not modeled; no claim
reads them). -/
structure VoteState where
  voteId : Option String
  status : Option String
  startAt : Int
  durationMs : Int
  endAt : Int
  options : List String
  tallies : List (String × Int)
  version : Option Int
  winnerOption : Option String
deriving Repr, DecidableEq

/-- Python `int(state.get("version") or 0)` on the PollState. -/
def voteVersion (st : VoteState) : Int :=
  st.version.getD 0

/-- Python `max(tallies.values())` (with a 0 placeholder on the empty hash, which the
caller never reaches). -/
def maxTally : List (String × Int) → Int
  | [] => 0
  | p :: rest => rest.foldl (fun m q => max m q.2) p.2

/-- The options tied at the maximum count, in hash order. -/
def tiedOptions (tallies : List (String × Int)) : List String :=
  (tallies.filter (fun p => p.2 = maxTally tallies)).map Prod.fst

/-- Embedding of `_pick_winner`; `ch` is the draw of `random.choice`, taken modulo the
number of tied options. -/
def pickWinner (ch : Nat) (tallies : List (String × Int)) : Option String :=
  match tallies with
  | [] => none
  | _ :: _ => (tiedOptions tallies).get? (ch % (tiedOptions tallies).length)

/-- The DS write of `_close_vote`: substitute zeroed tallies over the declared options
when the KV TallyMap is missing or expired, pick the winner, set status CLOSED keeping
every other field. -/
def closeVoteDS (state : VoteState) (kvTallies : List (String × Int)) (ch : Nat) : VoteState :=
  let tallies := if kvTallies = [] then state.options.map (fun o => (o, 0)) else kvTallies
  { state with status := some "CLOSED", winnerOption := pickWinner ch tallies,
               tallies := tallies }

/-- Outcome of the compare-and-act close. -/
inductive CloseOutcome where
  | noop (reason : String)
  | closed
  | error (msg : String)
deriving Repr, DecidableEq

/-- Embedding of `_close_current_vote_if_matches` with both expected values provided (as
the /vote/close route always does). `kvTallies` is the TallyMap read inside
`_close_vote`, `ch` the winner draw. The `.error` outcome is the ValueError raised on a
falsy stored voteId, surfaced as HTTP 500. The returned state is the DS document after
the call (the DS write precedes the Snapshot status update, so it stands even when the
latter fails). -/
def closeCurrentVoteIfMatches (stateQ : Option VoteState) (kvTallies : List (String × Int))
    (ch : Nat) (expectedVoteId : String) (expectedVersion : Int) :
    CloseOutcome × Option VoteState :=
  match stateQ with
  | none => (.noop "missing_state", none)
  | some state =>
      if state.voteId ≠ some expectedVoteId then (.noop "vote_mismatch", some state)
      else if voteVersion state ≠ expectedVersion then (.noop "version_mismatch", some state)
      else if state.status ≠ some "OPEN" then (.noop "already_closed", some state)
      else if expectedVoteId = "" then (.error "voteId missing from voteState/current", some state)
      else (.closed, some (closeVoteDS state kvTallies ch))

/-- Embedding of `_build_vote` + `_open_next_vote`: a fresh OPEN PollState. -/
def openNextVote (newVoteId : String) (now : Int) (durationMs : Int)
    (options : List String) (version : Int) : VoteState :=
  { voteId := some newVoteId, status := some "OPEN", startAt := now,
    durationMs := durationMs, endAt := now + durationMs, options := options,
    tallies := options.map (fun o => (o, 0)), version := some version,
    winnerOption := none }

/-- The Redis keys used by the playback flow: the Snapshot at `pulsefm:playback:current`
and the per-poll tally/voted keys; an absent entry reads as the empty hash/set, which
also models key expiry. TTL bookkeeping is not modeled. -/
structure KVState where
  snapshot : Option PlaybackSnapshot
  polls : List (String × PollKV)
deriving Repr, DecidableEq

/-- Read the poll keys for one voteId. -/
def kvPoll (kv : KVState) (voteId : String) : PollKV :=
  (kv.polls.lookup voteId).getD ⟨[], []⟩

/-- Overwrite the poll keys for one voteId. -/
def kvSetPoll (kv : KVState) (voteId : String) (p : PollKV) : KVState :=
  { kv with polls := (voteId, p) :: kv.polls.filter (fun q => ¬ q.1 = voteId) }

/-- Embedding of `set_playback_poll_status`: rewrite the Snapshot poll status in place;
raises when the Snapshot is missing or holds a different poll voteId. -/
def setPlaybackPollStatus (kv : KVState) (voteId : String) (st : String) :
    Except String KVState :=
  match kv.snapshot with
  | none => .error "playback current snapshot missing"
  | some snap =>
      if snap.poll.voteId ≠ some voteId then
        .error "playback current snapshot voteId mismatch"
      else
        .ok { kv with snapshot := some { snap with poll := { snap.poll with status := st } } }

/-- Embedding of `_rotate_vote`: close the current window when OPEN (DS write first,
then the Snapshot status update), then open a fresh window with version previous+1
(1 when absent) and duration songDurationMs minus the 60 s close lead floored at 0.
An error carries the DS document as left behind by the partial run. -/
def rotateVoteDS (voteQ : Option VoteState) (kv : KVState) (ch : Nat) (newVoteId : String)
    (options : List String) (songDurationMs : Int) (now : Int) :
    Except (String × Option VoteState) (VoteState × KVState) :=
  let voteDurationMs := max 0 (songDurationMs - 60000)
  let newVersion : Int := match voteQ with | some st => voteVersion st + 1 | none => 1
  let window := openNextVote newVoteId now voteDurationMs options newVersion
  match voteQ with
  | none => .ok (window, kv)
  | some st =>
      if st.status = some "OPEN" then
        match st.voteId with
        | none => .error ("voteId missing from voteState/current", some st)
        | some vid =>
            if vid = "" then .error ("voteId missing from voteState/current", some st)
            else
              let closedDoc := closeVoteDS st (kvPoll kv vid).tally ch
              match setPlaybackPollStatus kv vid "CLOSED" with
              | .error e => .error (e, some closedDoc)
              | .ok kv2 => .ok (window, kv2)
      else .ok (window, kv)

/-- Embedding of `_build_playback_snapshot` (millisecond epochs kept as integers). -/
def buildPlaybackSnapshot (rotation : SongRotationResult) (window : VoteState) :
    PlaybackSnapshot :=
  { currentSong := ⟨some rotation.voteId, some rotation.startAt, some rotation.endsAt,
                    some rotation.durationMs⟩,
    nextSong := ⟨some rotation.nextVoteId, some rotation.nextDurationMs⟩,
    poll := ⟨window.voteId, window.options, window.version, some "OPEN",
             some window.endAt⟩ }

/-- Embedding of `_update_redis_on_open` / `init_poll_open_atomic` (KV-OPEN): write the
fresh Snapshot and reset the tally and voted keys of the new poll, atomically. -/
def updateRedisOnOpen (kv : KVState) (voteId : String) (options : List String)
    (snap : PlaybackSnapshot) : KVState :=
  kvSetPoll { kv with snapshot := some snap } voteId (initPollOpen options)

/-- Combined state touched by the /tick route. -/
structure SysState where
  station : Option Station
  songs : List Song
  vote : Option VoteState
  kv : KVState
deriving Repr, DecidableEq

/-- HTTP result of the /tick route. -/
inductive TickResult where
  | ok (version : Int)
  | noopStale (requestVersion : Int)
  | badRequest (detail : String)
  | serverError (detail : String)
deriving Repr, DecidableEq

/-- Embedding of the POST /tick route: validate the version, run the rotation
transaction, rotate the vote window, write the fresh Snapshot and poll KV state, then
answer. Event publication and task scheduling do not change the modeled state.
`payloadVersion` is the parsed body version (`none` for missing or non-integer),
`newVoteId` the freshly drawn UUID, `options` the sampled window options and `ch` the
winner draw for a poll being force-closed. -/
def tickEndpoint (sys : SysState) (payloadVersion : Option Int) (now : Int)
    (newVoteId : String) (options : List String) (ch : Nat) : TickResult × SysState :=
  match payloadVersion with
  | none => (.badRequest "version is required", sys)
  | some v =>
      if v ≤ 0 then (.badRequest "version must be positive", sys)
      else
        match rotateSongTxn sys.station sys.songs v now with
        | .error e => (.serverError e, sys)
        | .ok none => (.noopStale v, sys)
        | .ok (some (station2, songs2, rotation)) =>
            match rotateVoteDS sys.vote sys.kv ch newVoteId options rotation.durationMs now with
            | .error (_, dsVote) =>
                (.serverError "Failed to rotate vote",
                  { station := some station2, songs := songs2, vote := dsVote, kv := sys.kv })
            | .ok (window, kv2) =>
                let snap := buildPlaybackSnapshot rotation window
                let kv3 := updateRedisOnOpen kv2 newVoteId options snap
                (.ok v, { station := some station2, songs := songs2,
                          vote := some window, kv := kv3 })

/-- Outcome of the next-song refresh transaction. -/
inductive RefreshOutcome where
  | noopNotStubbed (voteId : Option String) (durationMs : Int) (version : Int)
  | noopNoReady (voteId : Option String) (version : Int)
  | updated (voteId : String) (durationMs : Int) (version : Int)
deriving Repr, DecidableEq

/-- Embedding of the `_refresh_next_song` transaction: swap `next` for a freshly selected
ready candidate if and only if the current `next.voteId` is the literal stubbed id; the
station voteId, timing fields and version are never written. -/
def refreshNextSongTxn (stationQ : Option Station) (songs : List Song) :
    Except String (RefreshOutcome × Option Station × List Song) :=
  match stationQ with
  | none => .error "stations/main not found"
  | some station =>
      let nextData := station.next.getD ⟨none, none, none⟩
      if nextData.voteId ≠ some "stubbed" then
        match pyOrInt nextData.durationMs nextData.duration with
        | none => .error "stations/main.next missing duration"
        | some d =>
            .ok (.noopNotStubbed nextData.voteId d (stationVersion station),
                 some station, songs)
      else
        match selectReadySongCandidate songs station.voteId with
        | none =>
            .ok (.noopNoReady nextData.voteId (stationVersion station), some station, songs)
        | some c =>
            .ok (.updated c.id c.duration (stationVersion station),
                 some { station with next := some ⟨some c.id, some c.duration, some c.duration⟩ },
                 updateSongStatus songs c.id "queued")

/-- Embedding of the POST /next/refresh route body handling: the payload voteId is passed
to `_refresh_next_song` but the transaction never reads it. -/
def refreshNextSong (payloadVoteId : Option String) (stationQ : Option Station)
    (songs : List Song) : Except String (RefreshOutcome × Option Station × List Song) :=
  refreshNextSongTxn stationQ songs

theorem rotateSongTxn_stale (station : Station) (songs : List Song) (rv now : Int)
    (h : rv ≤ stationVersion station) :
    rotateSongTxn (some station) songs rv now = .ok none := by
  unfold rotateSongTxn
  simp [h]

theorem rotateSongTxn_ok_some (station : Station) (songs : List Song) (rv now : Int)
    (st2 : Station) (songs2 : List Song) (res : SongRotationResult)
    (h : rotateSongTxn (some station) songs rv now = .ok (some (st2, songs2, res))) :
    st2.version = some rv ∧ stationVersion station < rv ∧ res.version = rv := by
  unfold rotateSongTxn at h
  dsimp only at h
  by_cases hle : rv ≤ stationVersion station
  · simp [hle] at h
  · rw [if_neg hle] at h
    split at h
    · split at h
      · simp at h
      · simp only [Except.ok.injEq, Option.some.injEq, Prod.mk.injEq] at h
        obtain ⟨h1, _, h3⟩ := h
        refine ⟨?_, not_le.mp hle, ?_⟩
        · rw [← h1]
        · rw [← h3]
    · simp at h

/-- C3 counterexample: a rotation commit with requestVersion 3 against a StationRecord at
version 1 succeeds and writes version 3, so a completed cycle does not always increase
the version by exactly 1 — the transaction writes version := requestVersion and only
requires requestVersion > the stored version. -/
theorem rotationVersion_counterexample :
    rotateSongTxn
        (some ⟨some "stubbed", some 0, some 150000, some 150000, some 1,
               some ⟨some "stubbed", some 150000, some 150000⟩⟩)
        [⟨"stubbed", none, 0, some 150000⟩] 3 150000
      = .ok (some (⟨some "stubbed", some 150000, some 300000, some 150000, some 3,
                    some ⟨some "stubbed", some 150000, some 150000⟩⟩,
                   [⟨"stubbed", none, 0, some 150000⟩],
                   ⟨150000, 300000, 150000, "stubbed", "stubbed", 150000, true, 3⟩))
      ∧ (3 : Int) ≠ 1 + 1 := by
  constructor
  · rfl
  · decide

/-- C3 amended: every completed rotation cycle writes version := requestVersion, which
the stale guard forces to be strictly greater than the previous version, so the version
is strictly monotonic over rotation commits; when the tick carries requestVersion =
previous + 1 — as the self-scheduled tick tasks do — the version increases by exactly 1. -/
theorem rotationVersion_amended :
    ∀ (station : Station) (songs : List Song) (rv now : Int) (st2 : Station)
      (songs2 : List Song) (res : SongRotationResult),
      rotateSongTxn (some station) songs rv now = .ok (some (st2, songs2, res)) →
      st2.version = some rv ∧ stationVersion station < stationVersion st2
      ∧ (rv = stationVersion station + 1 →
          stationVersion st2 = stationVersion station + 1) := by
  intro station songs rv now st2 songs2 res h
  obtain ⟨h1, h2, _⟩ := rotateSongTxn_ok_some station songs rv now st2 songs2 res h
  have hv : stationVersion st2 = rv := by
    unfold stationVersion
    rw [h1]
    rfl
  exact ⟨h1, by omega, by omega⟩

/-- Concrete instantiation of `rotationVersion_amended`: the scheduled tick with
requestVersion 2 against version 1 commits exactly version 2. -/
theorem rotationVersion_amended_witness :
    (⟨some "stubbed", some 150000, some 300000, some 150000, some 2,
      some ⟨some "stubbed", some 150000, some 150000⟩⟩ : Station).version = some 2
    ∧ stationVersion ⟨some "stubbed", some 0, some 150000, some 150000, some 1,
        some ⟨some "stubbed", some 150000, some 150000⟩⟩
      < stationVersion (⟨some "stubbed", some 150000, some 300000, some 150000, some 2,
          some ⟨some "stubbed", some 150000, some 150000⟩⟩ : Station) := by
  have h := rotationVersion_amended
    ⟨some "stubbed", some 0, some 150000, some 150000, some 1,
     some ⟨some "stubbed", some 150000, some 150000⟩⟩
    [⟨"stubbed", none, 0, some 150000⟩] 2 150000
    ⟨some "stubbed", some 150000, some 300000, some 150000, some 2,
     some ⟨some "stubbed", some 150000, some 150000⟩⟩
    [⟨"stubbed", none, 0, some 150000⟩]
    ⟨150000, 300000, 150000, "stubbed", "stubbed", 150000, true, 2⟩
    (by rfl)
  exact ⟨h.1, h.2.1⟩

theorem tickEndpoint_ok_inversion (sys : SysState) (v now : Int) (nid : String)
    (opts : List String) (ch : Nat) (sys2 : SysState)
    (h : tickEndpoint sys (some v) now nid opts ch = (.ok v, sys2)) :
    0 < v ∧ ∃ station2 songs2 rotation window kv2,
      rotateSongTxn sys.station sys.songs v now = .ok (some (station2, songs2, rotation))
      ∧ rotateVoteDS sys.vote sys.kv ch nid opts rotation.durationMs now = .ok (window, kv2)
      ∧ sys2 = { station := some station2, songs := songs2, vote := some window,
                 kv := updateRedisOnOpen kv2 nid opts
                        (buildPlaybackSnapshot rotation window) } := by
  unfold tickEndpoint at h
  dsimp only at h
  by_cases hv : v ≤ 0
  · simp [hv] at h
  · rw [if_neg hv] at h
    refine ⟨by omega, ?_⟩
    split at h
    · simp at h
    · simp at h
    · rename_i station2 songs2 rotation heq
      split at h
      · simp at h
      · rename_i window kv2 heq2
        simp only [Prod.mk.injEq] at h
        exact ⟨station2, songs2, rotation, window, kv2, heq, heq2, h.2.symm⟩

/-- C4: after a tick(v) that returns ok with version v, a second tick with the same v
returns noop/stale_version and leaves the whole state untouched, so the StationRecord is
mutated exactly once and ends at version v; in general any tick whose requestVersion is
at most the stored version is a no-op that leaves the StationRecord unchanged. -/
theorem tick_duplicate_is_noop :
    (∀ (sys : SysState) (v now now2 : Int) (nid : String) (opts : List String) (ch : Nat)
        (nid2 : String) (opts2 : List String) (ch2 : Nat) (sys2 : SysState),
      tickEndpoint sys (some v) now nid opts ch = (.ok v, sys2) →
      tickEndpoint sys2 (some v) now2 nid2 opts2 ch2 = (.noopStale v, sys2)
      ∧ ∃ st2, sys2.station = some st2 ∧ st2.version = some v)
    ∧ (∀ (sys : SysState) (st : Station) (v now : Int) (nid : String)
        (opts : List String) (ch : Nat),
      sys.station = some st → 0 < v → v ≤ stationVersion st →
      tickEndpoint sys (some v) now nid opts ch = (.noopStale v, sys)) := by
  have hstale : ∀ (sys : SysState) (st : Station) (v now : Int) (nid : String)
      (opts : List String) (ch : Nat),
      sys.station = some st → 0 < v → v ≤ stationVersion st →
      tickEndpoint sys (some v) now nid opts ch = (.noopStale v, sys) := by
    intro sys st v now nid opts ch hst hv hle
    unfold tickEndpoint
    dsimp only
    rw [if_neg (by omega), hst, rotateSongTxn_stale st sys.songs v now hle]
  refine ⟨?_, hstale⟩
  intro sys v now now2 nid opts ch nid2 opts2 ch2 sys2 h
  obtain ⟨hv, station2, songs2, rotation, window, kv2, hrot, hvote, hsys2⟩ :=
    tickEndpoint_ok_inversion sys v now nid opts ch sys2 h
  cases hst : sys.station with
  | none => rw [hst] at hrot; simp [rotateSongTxn] at hrot
  | some st =>
      rw [hst] at hrot
      obtain ⟨hver, _, _⟩ :=
        rotateSongTxn_ok_some st sys.songs v now station2 songs2 rotation hrot
      have hst2 : sys2.station = some station2 := by rw [hsys2]
      refine ⟨?_, station2, hst2, hver⟩
      exact hstale sys2 station2 v now2 nid2 opts2 ch2 hst2 hv
        (by unfold stationVersion; rw [hver]; rfl)

/-- Concrete instantiation of `tick_duplicate_is_noop`: after a first tick(2) that
commits, a duplicate tick(2) is a noop/stale_version leaving everything unchanged. -/
theorem tick_duplicate_is_noop_witness :
    tickEndpoint
        ⟨some ⟨some "stubbed", some 150000, some 300000, some 150000, some 2,
               some ⟨some "stubbed", some 150000, some 150000⟩⟩,
         [⟨"stubbed", none, 0, some 150000⟩],
         some ⟨some "w1", some "OPEN", 150000, 90000, 240000, ["a"], [("a", 0)],
               some 1, none⟩,
         ⟨some ⟨⟨some "stubbed", some 150000, some 300000, some 150000⟩,
                ⟨some "stubbed", some 150000⟩,
                ⟨some "w1", ["a"], some 1, some "OPEN", some 240000⟩⟩,
          [("w1", ⟨[], [("a", 0)]⟩)]⟩⟩
        (some 2) 300000 "w2" ["b"] 1
      = (.noopStale 2,
         ⟨some ⟨some "stubbed", some 150000, some 300000, some 150000, some 2,
                some ⟨some "stubbed", some 150000, some 150000⟩⟩,
          [⟨"stubbed", none, 0, some 150000⟩],
          some ⟨some "w1", some "OPEN", 150000, 90000, 240000, ["a"], [("a", 0)],
                some 1, none⟩,
          ⟨some ⟨⟨some "stubbed", some 150000, some 300000, some 150000⟩,
                 ⟨some "stubbed", some 150000⟩,
                 ⟨some "w1", ["a"], some 1, some "OPEN", some 240000⟩⟩,
           [("w1", ⟨[], [("a", 0)]⟩)]⟩⟩)
    ∧ ∃ st2,
        (⟨some ⟨some "stubbed", some 150000, some 300000, some 150000, some 2,
                some ⟨some "stubbed", some 150000, some 150000⟩⟩,
          [⟨"stubbed", none, 0, some 150000⟩],
          some ⟨some "w1", some "OPEN", 150000, 90000, 240000, ["a"], [("a", 0)],
                some 1, none⟩,
          ⟨some ⟨⟨some "stubbed", some 150000, some 300000, some 150000⟩,
                 ⟨some "stubbed", some 150000⟩,
                 ⟨some "w1", ["a"], some 1, some "OPEN", some 240000⟩⟩,
           [("w1", ⟨[], [("a", 0)]⟩)]⟩⟩ : SysState).station = some st2
        ∧ st2.version = some 2 :=
  tick_duplicate_is_noop.1
    ⟨some ⟨some "stubbed", some 0, some 150000, some 150000, some 1,
           some ⟨some "stubbed", some 150000, some 150000⟩⟩,
     [⟨"stubbed", none, 0, some 150000⟩], none, ⟨none, []⟩⟩
    2 150000 300000 "w1" ["a"] 0 "w2" ["b"] 1
    ⟨some ⟨some "stubbed", some 150000, some 300000, some 150000, some 2,
           some ⟨some "stubbed", some 150000, some 150000⟩⟩,
     [⟨"stubbed", none, 0, some 150000⟩],
     some ⟨some "w1", some "OPEN", 150000, 90000, 240000, ["a"], [("a", 0)],
           some 1, none⟩,
     ⟨some ⟨⟨some "stubbed", some 150000, some 300000, some 150000⟩,
            ⟨some "stubbed", some 150000⟩,
            ⟨some "w1", ["a"], some 1, some "OPEN", some 240000⟩⟩,
      [("w1", ⟨[], [("a", 0)]⟩)]⟩⟩
    (by rfl)

theorem closeVoteDS_version (st : VoteState) (kvT : List (String × Int)) (ch : Nat) :
    (closeVoteDS st kvT ch).version = st.version ∧
    (closeVoteDS st kvT ch).status = some "CLOSED" := by
  unfold closeVoteDS
  exact ⟨rfl, rfl⟩

/-- One DS transition of the poll document: a compare-and-act close with any arguments,
the inner close performed by `_rotate_vote` on the current window (covering rotations
whose Snapshot update fails right after the DS write), or a completed `_rotate_vote`. -/
inductive PollStep : Option VoteState → Option VoteState → Prop
  | close (stateQ : Option VoteState) (kvTallies : List (String × Int)) (ch : Nat)
      (ev : String) (ever : Int) :
      PollStep stateQ (closeCurrentVoteIfMatches stateQ kvTallies ch ev ever).2
  | closeInner (st : VoteState) (kvTallies : List (String × Int)) (ch : Nat) :
      PollStep (some st) (some (closeVoteDS st kvTallies ch))
  | rotate (voteQ : Option VoteState) (kv : KVState) (ch : Nat) (newVoteId : String)
      (options : List String) (songDurationMs now : Int)
      (window : VoteState) (kv2 : KVState) :
      rotateVoteDS voteQ kv ch newVoteId options songDurationMs now = .ok (window, kv2) →
      PollStep voteQ (some window)

/-- Reflexive-transitive closure of `PollStep`. -/
inductive PollReach : Option VoteState → Option VoteState → Prop
  | refl (s : Option VoteState) : PollReach s s
  | tail {s t u : Option VoteState} : PollReach s t → PollStep t u → PollReach s u

/-- Invariant holding from the moment the poll at version ver was closed: the document
never again carries version ver with status OPEN, and versions only grow past ver. -/
def ClosedStays (ver : Int) (sQ : Option VoteState) : Prop :=
  ∃ st, sQ = some st ∧ ver ≤ voteVersion st
    ∧ (voteVersion st = ver → st.status ≠ some "OPEN")

theorem closeCurrentVoteIfMatches_inversion (st : VoteState) (kvT : List (String × Int))
    (ch : Nat) (ev : String) (ever : Int) :
    (closeCurrentVoteIfMatches (some st) kvT ch ev ever).2 = some st
    ∨ ((closeCurrentVoteIfMatches (some st) kvT ch ev ever)
          = (.closed, some (closeVoteDS st kvT ch))
        ∧ st.voteId = some ev ∧ voteVersion st = ever ∧ st.status = some "OPEN") := by
  unfold closeCurrentVoteIfMatches
  dsimp only
  by_cases h1 : st.voteId ≠ some ev
  · simp [h1]
  · rw [if_neg h1]
    by_cases h2 : voteVersion st ≠ ever
    · simp [h2]
    · rw [if_neg h2]
      by_cases h3 : st.status ≠ some "OPEN"
      · simp [h3]
      · rw [if_neg h3]
        by_cases h4 : ev = ""
        · simp [h4]
        · rw [if_neg h4]
          right
          exact ⟨rfl, not_not.mp h1, not_not.mp h2, not_not.mp h3⟩

theorem rotateVoteDS_ok_window (st : VoteState) (kv : KVState) (ch : Nat)
    (newVoteId : String) (options : List String) (songDurationMs now : Int)
    (window : VoteState) (kv2 : KVState)
    (h : rotateVoteDS (some st) kv ch newVoteId options songDurationMs now
          = .ok (window, kv2)) :
    window = openNextVote newVoteId now (max 0 (songDurationMs - 60000)) options
      (voteVersion st + 1) := by
  unfold rotateVoteDS at h
  dsimp only at h
  by_cases hop : st.status = some "OPEN"
  · rw [if_pos hop] at h
    cases hvid : st.voteId with
    | none => rw [hvid] at h; simp at h
    | some vid =>
        rw [hvid] at h
        dsimp only at h
        by_cases hemp : vid = ""
        · simp [hemp] at h
        · rw [if_neg hemp] at h
          split at h
          · simp at h
          · simp only [Except.ok.injEq, Prod.mk.injEq] at h
            exact h.1.symm
  · rw [if_neg hop] at h
    simp only [Except.ok.injEq, Prod.mk.injEq] at h
    exact h.1.symm

theorem voteVersion_openNextVote (newVoteId : String) (now durationMs : Int)
    (options : List String) (ver : Int) :
    voteVersion (openNextVote newVoteId now durationMs options ver) = ver := rfl

theorem pollStep_preserves_closedStays (ver : Int) (s t : Option VoteState)
    (hs : ClosedStays ver s) (hstep : PollStep s t) : ClosedStays ver t := by
  obtain ⟨st, hseq, hle, hnot⟩ := hs
  cases hstep with
  | close stateQ kvT ch ev ever =>
      subst hseq
      rcases closeCurrentVoteIfMatches_inversion st kvT ch ev ever with hsame | ⟨heq, _, _, _⟩
      · rw [hsame]; exact ⟨st, rfl, hle, hnot⟩
      · rw [heq]
        refine ⟨closeVoteDS st kvT ch, rfl, ?_, ?_⟩
        · unfold voteVersion
          rw [(closeVoteDS_version st kvT ch).1]
          exact hle
        · intro _
          rw [(closeVoteDS_version st kvT ch).2]
          simp
  | closeInner st2 kvT ch =>
      have hst : st2 = st := Option.some.inj hseq
      subst hst
      refine ⟨closeVoteDS st2 kvT ch, rfl, ?_, ?_⟩
      · unfold voteVersion
        rw [(closeVoteDS_version st2 kvT ch).1]
        exact hle
      · intro _
        rw [(closeVoteDS_version st2 kvT ch).2]
        simp
  | rotate voteQ kv ch nid opts dms now window kv2 hrot =>
      subst hseq
      have hw := rotateVoteDS_ok_window st kv ch nid opts dms now window kv2 hrot
      have hv : voteVersion window = voteVersion st + 1 := by
        rw [hw, voteVersion_openNextVote]
      exact ⟨window, rfl, by omega, fun hveq => absurd hveq (by omega)⟩

theorem pollReach_preserves_closedStays (ver : Int) (s t : Option VoteState)
    (hs : ClosedStays ver s) (hr : PollReach s t) : ClosedStays ver t := by
  induction hr with
  | refl => exact hs
  | tail _ hstep ih => exact pollStep_preserves_closedStays ver _ _ ih hstep

theorem closedStays_no_closed (ver : Int) (t : Option VoteState)
    (ht : ClosedStays ver t) (kvT : List (String × Int)) (ch : Nat) (ev : String) :
    (closeCurrentVoteIfMatches t kvT ch ev ver).1 ≠ .closed := by
  obtain ⟨st, rfl, hle, hnot⟩ := ht
  unfold closeCurrentVoteIfMatches
  dsimp only
  by_cases h1 : st.voteId ≠ some ev
  · simp [h1]
  · rw [if_neg h1]
    by_cases h2 : voteVersion st ≠ ver
    · simp [h2]
    · rw [if_neg h2]
      have hcl : st.status ≠ some "OPEN" := hnot (not_not.mp h2)
      simp [hcl]

theorem voteVersion_closeVoteDS (st : VoteState) (kvT : List (String × Int)) (ch : Nat) :
    voteVersion (closeVoteDS st kvT ch) = voteVersion st := by
  unfold voteVersion
  rw [(closeVoteDS_version st kvT ch).1]

/-- C6: closePoll is a compare-and-act: a missing document, a voteId mismatch, a version
mismatch or a non-OPEN status each yield {noop, reason} and leave the document
untouched; when it closes, every DS state reachable through further closes and
rotations answers noop to a closePoll carrying that poll's version, so for every OPEN
poll at most one closePoll returns {closed} and all further calls return {noop}. -/
theorem closePoll_compare_and_act :
    (∀ (kvT : List (String × Int)) (ch : Nat) (ev : String) (ever : Int),
        closeCurrentVoteIfMatches none kvT ch ev ever = (.noop "missing_state", none))
    ∧ (∀ (st : VoteState) (kvT : List (String × Int)) (ch : Nat) (ev : String)
          (ever : Int), st.voteId ≠ some ev →
        closeCurrentVoteIfMatches (some st) kvT ch ev ever
          = (.noop "vote_mismatch", some st))
    ∧ (∀ (st : VoteState) (kvT : List (String × Int)) (ch : Nat) (ev : String)
          (ever : Int), st.voteId = some ev → voteVersion st ≠ ever →
        closeCurrentVoteIfMatches (some st) kvT ch ev ever
          = (.noop "version_mismatch", some st))
    ∧ (∀ (st : VoteState) (kvT : List (String × Int)) (ch : Nat) (ev : String)
          (ever : Int), st.voteId = some ev → voteVersion st = ever →
        st.status ≠ some "OPEN" →
        closeCurrentVoteIfMatches (some st) kvT ch ev ever
          = (.noop "already_closed", some st))
    ∧ (∀ (st : VoteState) (kvT : List (String × Int)) (ch : Nat) (ev : String)
          (ever : Int) (sQ2 : Option VoteState),
        closeCurrentVoteIfMatches (some st) kvT ch ev ever = (.closed, sQ2) →
        ∀ t, PollReach sQ2 t → ∀ (kvT2 : List (String × Int)) (ch2 : Nat) (ev2 : String),
          (closeCurrentVoteIfMatches t kvT2 ch2 ev2 ever).1 ≠ .closed) := by
  refine ⟨fun kvT ch ev ever => rfl, ?_, ?_, ?_, ?_⟩
  · intro st kvT ch ev ever h1
    unfold closeCurrentVoteIfMatches
    dsimp only
    rw [if_pos h1]
  · intro st kvT ch ev ever h1 h2
    unfold closeCurrentVoteIfMatches
    dsimp only
    rw [if_neg (not_not.mpr h1), if_pos h2]
  · intro st kvT ch ev ever h1 h2 h3
    unfold closeCurrentVoteIfMatches
    dsimp only
    rw [if_neg (not_not.mpr h1), if_neg (not_not.mpr h2), if_pos h3]
  · intro st kvT ch ev ever sQ2 h t hreach kvT2 ch2 ev2
    have hstart : ClosedStays ever sQ2 := by
      unfold closeCurrentVoteIfMatches at h
      dsimp only at h
      by_cases h1 : st.voteId ≠ some ev
      · simp [h1] at h
      · rw [if_neg h1] at h
        by_cases h2 : voteVersion st ≠ ever
        · simp [h2] at h
        · rw [if_neg h2] at h
          by_cases h3 : st.status ≠ some "OPEN"
          · simp [h3] at h
          · rw [if_neg h3] at h
            by_cases h4 : ev = ""
            · simp [h4] at h
            · rw [if_neg h4] at h
              simp only [Prod.mk.injEq] at h
              rw [← h.2]
              refine ⟨closeVoteDS st kvT ch, rfl, ?_, ?_⟩
              · rw [voteVersion_closeVoteDS]
                exact le_of_eq (not_not.mp h2).symm
              · intro _
                rw [(closeVoteDS_version st kvT ch).2]
                simp
    exact closedStays_no_closed ever t
      (pollReach_preserves_closedStays ever sQ2 t hstart hreach) kvT2 ch2 ev2

/-- Concrete instantiation of `closePoll_compare_and_act`: once poll (v1, version 1) is
closed, a repeated closePoll(v1, 1) no longer returns {closed}. -/
theorem closePoll_compare_and_act_witness :
    (closeCurrentVoteIfMatches
        (some (closeVoteDS
          ⟨some "v1", some "OPEN", 0, 90000, 90000, ["a"], [("a", 0)], some 1, none⟩
          [("a", 2)] 0))
        [] 0 "v1" 1).1 ≠ .closed :=
  closePoll_compare_and_act.2.2.2.2
    ⟨some "v1", some "OPEN", 0, 90000, 90000, ["a"], [("a", 0)], some 1, none⟩
    [("a", 2)] 0 "v1" 1
    (some (closeVoteDS
      ⟨some "v1", some "OPEN", 0, 90000, 90000, ["a"], [("a", 0)], some 1, none⟩
      [("a", 2)] 0))
    (by rfl) _ (PollReach.refl _) [] 0 "v1"

theorem foldl_max_le_init (rest : List (String × Int)) :
    ∀ a : Int, a ≤ rest.foldl (fun m q => max m q.2) a := by
  induction rest with
  | nil => intro a; simp
  | cons q rest ih =>
      intro a
      simp only [List.foldl_cons]
      exact le_trans (le_max_left a q.2) (ih (max a q.2))

theorem foldl_max_le_mem (rest : List (String × Int)) :
    ∀ (a : Int) (q : String × Int), q ∈ rest →
      q.2 ≤ rest.foldl (fun m p => max m p.2) a := by
  induction rest with
  | nil => intro a q hq; simp at hq
  | cons r rest ih =>
      intro a q hq
      simp only [List.foldl_cons]
      rcases List.mem_cons.mp hq with h | h
      · rw [h]
        exact le_trans (le_max_right a r.2) (foldl_max_le_init rest (max a r.2))
      · exact ih (max a r.2) q h

theorem foldl_max_attained (rest : List (String × Int)) :
    ∀ a : Int, rest.foldl (fun m q => max m q.2) a = a
      ∨ ∃ q ∈ rest, rest.foldl (fun m q => max m q.2) a = q.2 := by
  induction rest with
  | nil => intro a; left; rfl
  | cons r rest ih =>
      intro a
      simp only [List.foldl_cons]
      rcases ih (max a r.2) with h | ⟨q, hq, h⟩
      · by_cases har : a ≤ r.2
        · right
          exact ⟨r, List.mem_cons_self r rest, by rw [h]; exact max_eq_right har⟩
        · left
          rw [h]
          exact max_eq_left (le_of_not_le har)
      · right
        exact ⟨q, List.mem_cons_of_mem r hq, h⟩

theorem maxTally_attained (t : List (String × Int)) (h : t ≠ []) :
    ∃ p ∈ t, p.2 = maxTally t := by
  match t with
  | p :: rest =>
      unfold maxTally
      rcases foldl_max_attained rest p.2 with h0 | ⟨q, hq, h0⟩
      · exact ⟨p, List.mem_cons_self p rest, h0.symm⟩
      · exact ⟨q, List.mem_cons_of_mem p hq, h0.symm⟩

theorem maxTally_ge (t : List (String × Int)) (p : String × Int) (hp : p ∈ t) :
    p.2 ≤ maxTally t := by
  match t with
  | r :: rest =>
      unfold maxTally
      rcases List.mem_cons.mp hp with h | h
      · rw [h]
        exact foldl_max_le_init rest r.2
      · exact foldl_max_le_mem rest r.2 p h

theorem mem_tiedOptions (t : List (String × Int)) (w : String) :
    w ∈ tiedOptions t ↔ ∃ c, (w, c) ∈ t ∧ c = maxTally t := by
  unfold tiedOptions
  simp only [List.mem_map, List.mem_filter, decide_eq_true_eq]
  constructor
  · rintro ⟨⟨a, c⟩, ⟨hmem, hc⟩, rfl⟩
    exact ⟨c, hmem, hc⟩
  · rintro ⟨c, hmem, hc⟩
    exact ⟨(w, c), ⟨hmem, hc⟩, rfl⟩

theorem tiedOptions_ne_nil (t : List (String × Int)) (h : t ≠ []) :
    tiedOptions t ≠ [] := by
  obtain ⟨p, hp, hmax⟩ := maxTally_attained t h
  intro hcon
  have hmem : p.1 ∈ tiedOptions t := (mem_tiedOptions t p.1).mpr ⟨p.2, hp, hmax⟩
  rw [hcon] at hmem
  simp at hmem

theorem pickWinner_mem_tied (ch : Nat) (t : List (String × Int)) (h : t ≠ []) :
    ∃ w, pickWinner ch t = some w ∧ w ∈ tiedOptions t := by
  match t with
  | p :: rest =>
      have hne := tiedOptions_ne_nil (p :: rest) h
      have hlen : 0 < (tiedOptions (p :: rest)).length := List.length_pos.mpr hne
      have hmod : ch % (tiedOptions (p :: rest)).length < (tiedOptions (p :: rest)).length :=
        Nat.mod_lt ch hlen
      refine ⟨(tiedOptions (p :: rest)).get ⟨ch % (tiedOptions (p :: rest)).length, hmod⟩,
              ?_, List.get_mem _ _ _⟩
      unfold pickWinner
      exact List.get?_eq_get hmod

theorem pickWinner_surjective (t : List (String × Int)) (w : String)
    (hw : w ∈ tiedOptions t) (h : t ≠ []) : ∃ ch, pickWinner ch t = some w := by
  obtain ⟨n, hn⟩ := List.mem_iff_get?.mp hw
  have hlt : n < (tiedOptions t).length := by
    rcases List.get?_eq_some.mp hn with ⟨hl, _⟩
    exact hl
  refine ⟨n, ?_⟩
  match t with
  | p :: rest =>
      unfold pickWinner
      rw [Nat.mod_eq_of_lt hlt]
      exact hn

theorem foldl_max_zeros (rest : List String) :
    ((rest.map (fun o => (o, (0 : Int)))).foldl (fun m q => max m q.2) 0) = 0 := by
  induction rest with
  | nil => rfl
  | cons o rest ih =>
      simp only [List.map_cons, List.foldl_cons]
      simpa using ih

theorem maxTally_zeros (opts : List String) (h : opts ≠ []) :
    maxTally (opts.map (fun o => (o, (0 : Int)))) = 0 := by
  match opts with
  | o :: rest =>
      unfold maxTally
      simp only [List.map_cons]
      exact foldl_max_zeros rest

theorem filter_zeros_map (opts : List String) :
    ((opts.map (fun o => (o, (0 : Int)))).filter
        (fun p => p.2 = (0 : Int))).map Prod.fst = opts := by
  induction opts with
  | nil => rfl
  | cons o rest ih => simpa using ih

theorem tiedOptions_zeros (opts : List String) (h : opts ≠ []) :
    tiedOptions (opts.map (fun o => (o, (0 : Int)))) = opts := by
  unfold tiedOptions
  rw [maxTally_zeros opts h]
  exact filter_zeros_map opts

theorem closeVoteDS_winner_eq (st : VoteState) (ch : Nat) :
    (closeVoteDS st [] ch).winnerOption
      = pickWinner ch (st.options.map (fun o => (o, (0 : Int)))) := by
  unfold closeVoteDS
  simp

theorem zeroFill_winner (st : VoteState) (ch : Nat) (h : st.options ≠ []) :
    ∃ w, (closeVoteDS st [] ch).winnerOption = some w ∧ w ∈ st.options := by
  have hmapne : st.options.map (fun o => (o, (0 : Int))) ≠ [] := by
    intro hc
    exact h (List.map_eq_nil_iff.mp hc)
  obtain ⟨w, hw, hmem⟩ :=
    pickWinner_mem_tied ch (st.options.map (fun o => (o, (0 : Int)))) hmapne
  refine ⟨w, ?_, ?_⟩
  · rw [closeVoteDS_winner_eq]; exact hw
  · rw [tiedOptions_zeros st.options h] at hmem; exact hmem

/-- C7: at close the winnerOption is an option holding the maximum tally count; the
random draw ranges over exactly the tied options (every tied option is a possible
outcome, uniformly by the contract of random.choice); when the maximum count is 0 — in
particular when the close substitutes zeroed tallies — the tied list is the whole
declared option list, so the winner is a declared option and every declared option is a
possible outcome. -/
theorem winner_selection :
    (∀ (ch : Nat) (t : List (String × Int)), t ≠ [] →
        ∃ w, pickWinner ch t = some w
          ∧ (∃ c, (w, c) ∈ t ∧ c = maxTally t)
          ∧ ∀ p ∈ t, p.2 ≤ maxTally t)
    ∧ (∀ (t : List (String × Int)) (w : String) (c : Int),
        t ≠ [] → (w, c) ∈ t → c = maxTally t → ∃ ch, pickWinner ch t = some w)
    ∧ (∀ (ch : Nat) (st : VoteState), st.options ≠ [] →
        ∃ w, (closeVoteDS st [] ch).winnerOption = some w ∧ w ∈ st.options)
    ∧ (∀ (st : VoteState) (w : String), st.options ≠ [] → w ∈ st.options →
        ∃ ch, (closeVoteDS st [] ch).winnerOption = some w) := by
  refine ⟨?_, ?_, fun ch st h => zeroFill_winner st ch h, ?_⟩
  · intro ch t ht
    obtain ⟨w, hw, hmem⟩ := pickWinner_mem_tied ch t ht
    obtain ⟨c, hc, hcm⟩ := (mem_tiedOptions t w).mp hmem
    exact ⟨w, hw, ⟨c, hc, hcm⟩, fun p hp => maxTally_ge t p hp⟩
  · intro t w c ht hmem hc
    exact pickWinner_surjective t w ((mem_tiedOptions t w).mpr ⟨c, hmem, hc⟩) ht
  · intro st w h hw
    have hmapne : st.options.map (fun o => (o, (0 : Int))) ≠ [] := by
      intro hc
      exact h (List.map_eq_nil_iff.mp hc)
    have hw2 : w ∈ tiedOptions (st.options.map (fun o => (o, (0 : Int)))) := by
      rw [tiedOptions_zeros st.options h]
      exact hw
    obtain ⟨ch, hch⟩ :=
      pickWinner_surjective (st.options.map (fun o => (o, (0 : Int)))) w hw2 hmapne
    refine ⟨ch, ?_⟩
    rw [closeVoteDS_winner_eq]
    exact hch

/-- Concrete instantiation of `winner_selection`: with tallies a=2 and b=2 tied at the
maximum, any draw yields a winner holding the maximum count. -/
theorem winner_selection_witness :
    ∃ w, pickWinner 1 [("a", 2), ("b", 2)] = some w
      ∧ (∃ c, (w, c) ∈ [("a", (2 : Int)), ("b", 2)] ∧ c = maxTally [("a", 2), ("b", 2)])
      ∧ ∀ p ∈ [("a", (2 : Int)), ("b", 2)], p.2 ≤ maxTally [("a", 2), ("b", 2)] :=
  winner_selection.1 1 [("a", 2), ("b", 2)] (by decide)

/-- C10: when the KV TallyMap is missing or expired at close time, `_close_vote`
substitutes a zero count for every option declared in the poll state, the close still
succeeds, and the winnerOption is still drawn from the declared options. -/
theorem closeVote_zero_fill :
    (∀ (st : VoteState) (ch : Nat),
        (closeVoteDS st [] ch).tallies = st.options.map (fun o => (o, (0 : Int)))
        ∧ (closeVoteDS st [] ch).status = some "CLOSED")
    ∧ (∀ (st : VoteState) (ch : Nat), st.options ≠ [] →
        ∃ w, (closeVoteDS st [] ch).winnerOption = some w ∧ w ∈ st.options)
    ∧ (∀ (st : VoteState) (ch : Nat) (ev : String) (ever : Int),
        st.voteId = some ev → ev ≠ "" → voteVersion st = ever → st.status = some "OPEN" →
        (closeCurrentVoteIfMatches (some st) [] ch ev ever).1 = .closed) := by
  refine ⟨?_, fun st ch h => zeroFill_winner st ch h, ?_⟩
  · intro st ch
    unfold closeVoteDS
    exact ⟨by simp, rfl⟩
  · intro st ch ev ever h1 h2 h3 h4
    unfold closeCurrentVoteIfMatches
    dsimp only
    rw [if_neg (not_not.mpr h1), if_neg (not_not.mpr h3), if_neg (not_not.mpr h4),
        if_neg h2]

/-- Concrete instantiation of `closeVote_zero_fill`: a matching OPEN poll whose KV
tallies have expired still closes. -/
theorem closeVote_zero_fill_witness :
    (closeCurrentVoteIfMatches
        (some ⟨some "v1", some "OPEN", 0, 90000, 90000, ["a", "b"], [("a", 0), ("b", 0)],
               some 1, none⟩)
        [] 0 "v1" 1).1 = .closed :=
  closeVote_zero_fill.2.2
    ⟨some "v1", some "OPEN", 0, 90000, 90000, ["a", "b"], [("a", 0), ("b", 0)],
     some 1, none⟩
    0 "v1" 1 (by decide) (by decide) (by decide) (by decide)

/-- A query document the candidate scan accepts: not the id becoming current, and with a
durationMs present. -/
def eligibleCandidate (cur : Option String) (d : Song) : Bool :=
  !(skipsCandidate cur d) && !(d.durationMs.isNone)

theorem selectFromDocs_eq_find (cur : Option String) (docs : List Song) :
    selectFromDocs cur docs
      = (docs.find? (eligibleCandidate cur)).map
          (fun d => ⟨d.id, d.durationMs.getD 0, false⟩) := by
  induction docs with
  | nil => rfl
  | cons d rest ih =>
      unfold selectFromDocs
      by_cases hskip : skipsCandidate cur d
      · rw [if_pos hskip, List.find?_cons_of_neg]
        · exact ih
        · simp [eligibleCandidate, hskip]
      · rw [if_neg hskip]
        cases hdur : d.durationMs with
        | none =>
            rw [List.find?_cons_of_neg]
            · exact ih
            · simp [eligibleCandidate, hskip, hdur]
        | some x =>
            rw [List.find?_cons_of_pos]
            · simp [hdur]
            · simp [eligibleCandidate, hskip, hdur]

theorem mem_insertByCreatedAtDesc (s x : Song) (l : List Song) :
    x ∈ insertByCreatedAtDesc s l ↔ x = s ∨ x ∈ l := by
  induction l with
  | nil => simp [insertByCreatedAtDesc]
  | cons t rest ih =>
      unfold insertByCreatedAtDesc
      by_cases h : t.createdAt ≤ s.createdAt
      · simp [h]
      · rw [if_neg h]
        simp only [List.mem_cons, ih]
        tauto

theorem mem_sortByCreatedAtDesc (x : Song) (l : List Song) :
    x ∈ sortByCreatedAtDesc l ↔ x ∈ l := by
  induction l with
  | nil => simp [sortByCreatedAtDesc]
  | cons s rest ih =>
      unfold sortByCreatedAtDesc
      rw [mem_insertByCreatedAtDesc]
      simp only [List.mem_cons, ih]

theorem mem_queryReadyDesc (songs : List Song) (d : Song)
    (h : d ∈ queryReadyDesc songs) : d ∈ songs ∧ d.status = some "ready" := by
  unfold queryReadyDesc at h
  have h2 := List.take_subset 10 _ h
  rw [mem_sortByCreatedAtDesc] at h2
  have h3 := List.mem_filter.mp h2
  exact ⟨h3.1, by simpa using h3.2⟩

theorem rotateSongTxn_candidate_inversion (station : Station) (songs : List Song)
    (rv now : Int) (st2 : Station) (songs2 : List Song) (res : SongRotationResult)
    (nd : StationNext) (cv : String)
    (h : rotateSongTxn (some station) songs rv now = .ok (some (st2, songs2, res)))
    (hnext : station.next = some nd) (hcv : nd.voteId = some cv) :
    (∀ c, selectReadySongCandidate songs (some cv) = some c →
        res.nextVoteId = c.id ∧ res.nextStubbed = c.stubbed
        ∧ res.nextDurationMs = c.duration
        ∧ st2.next = some ⟨some c.id, some c.duration, some c.duration⟩)
    ∧ (selectReadySongCandidate songs (some cv) = none →
        res.nextVoteId = "stubbed" ∧ res.nextStubbed = true
        ∧ st2.next = some ⟨some "stubbed", some res.nextDurationMs,
                           some res.nextDurationMs⟩) := by
  unfold rotateSongTxn at h
  dsimp only at h
  by_cases hle : rv ≤ stationVersion station
  · simp [hle] at h
  · rw [if_neg hle, hnext] at h
    simp only [Option.getD_some] at h
    rw [hcv] at h
    cases hpy : pyOrInt nd.durationMs nd.duration with
    | none => rw [hpy] at h; simp at h
    | some dm =>
        rw [hpy] at h
        dsimp only at h
        cases hsel : selectReadySongCandidate songs (some cv) with
        | some c =>
            rw [hsel] at h
            dsimp only at h
            simp only [Except.ok.injEq, Option.some.injEq, Prod.mk.injEq] at h
            obtain ⟨h1, _, h3⟩ := h
            constructor
            · intro c2 hc2
              obtain rfl : c = c2 := Option.some.inj hc2
              refine ⟨by rw [← h3], by rw [← h3], by rw [← h3], by rw [← h1]⟩
            · intro hcon
              exact Option.noConfusion hcon
        | none =>
            rw [hsel] at h
            dsimp only at h
            cases hfind : findSong songs "stubbed" with
            | none => rw [hfind] at h; simp at h
            | some stubbedSong =>
                rw [hfind] at h
                dsimp only at h
                cases hdur : stubbedSong.durationMs with
                | none => rw [hdur] at h; simp at h
                | some d =>
                    rw [hdur] at h
                    dsimp only at h
                    simp only [Except.ok.injEq, Option.some.injEq, Prod.mk.injEq] at h
                    obtain ⟨h1, _, h3⟩ := h
                    constructor
                    · intro c2 hc2
                      exact Option.noConfusion hc2
                    · intro _
                      refine ⟨by rw [← h3], by rw [← h3], ?_⟩
                      rw [← h1, ← h3]

theorem selectReady_inversion (songs : List Song) (cur : Option String) (c : Candidate)
    (h : selectReadySongCandidate songs cur = some c) :
    c.stubbed = false ∧ ∃ s, s ∈ songs ∧ s.status = some "ready" ∧ s.id = c.id
      ∧ s.durationMs = some c.duration := by
  unfold selectReadySongCandidate at h
  rw [selectFromDocs_eq_find] at h
  cases hfind : (queryReadyDesc songs).find? (eligibleCandidate cur) with
  | none => rw [hfind] at h; cases h
  | some d =>
      rw [hfind] at h
      have hc : c = ⟨d.id, d.durationMs.getD 0, false⟩ := (Option.some.inj h).symm
      have hp := List.find?_some hfind
      have hmem := List.mem_of_find?_eq_some hfind
      obtain ⟨hs, hready⟩ := mem_queryReadyDesc songs d hmem
      cases hdur : d.durationMs with
      | none => simp [eligibleCandidate, hdur] at hp
      | some x =>
          subst hc
          refine ⟨rfl, d, hs, hready, rfl, ?_⟩
          rw [hdur]
          simp

/-- C5 counterexample: (i) with the newest ready song lacking durationMs, selection does
not take the first ready non-current song but skips to the next one; (ii) when the only
ready song is the id becoming current, rotation picks stubbed as next even though a
ready song and the stubbed song both exist, contradicting that the ready song is always
chosen. -/
theorem candidate_selection_counterexample :
    selectReadySongCandidate
        [⟨"A", some "ready", 10, none⟩, ⟨"B", some "ready", 5, some 120⟩] (some "cur")
      = some ⟨"B", 120, false⟩
    ∧ rotateSongTxn
        (some ⟨some "old", some 0, some 100, some 100, some 1,
               some ⟨some "X", none, some 100⟩⟩)
        [⟨"X", some "ready", 5, some 100⟩, ⟨"stubbed", none, 0, some 150000⟩] 2 1000
      = .ok (some (⟨some "X", some 1000, some 1100, some 100, some 2,
                    some ⟨some "stubbed", some 150000, some 150000⟩⟩,
                   [⟨"X", some "played", 5, some 100⟩,
                    ⟨"stubbed", none, 0, some 150000⟩],
                   ⟨1000, 1100, 100, "X", "stubbed", 150000, true, 2⟩)) := by
  constructor
  · decide
  · rfl

/-- C5 amended: candidate selection scans Songs with status ready ordered by createdAt
descending limit 10 and takes the first that is neither the id becoming current nor
missing durationMs; any selected candidate is a ready song and never stubbed; when no
scanned document qualifies the rotation falls back to the stubbed Song, and whenever one
qualifies the ready candidate is chosen as next over stubbed. -/
theorem candidate_selection_amended :
    (∀ (cur : Option String) (songs : List Song),
        selectReadySongCandidate songs cur
          = ((queryReadyDesc songs).find? (eligibleCandidate cur)).map
              (fun d => ⟨d.id, d.durationMs.getD 0, false⟩))
    ∧ (∀ (songs : List Song) (cur : Option String) (c : Candidate),
        selectReadySongCandidate songs cur = some c →
        c.stubbed = false ∧ ∃ s, s ∈ songs ∧ s.status = some "ready" ∧ s.id = c.id
          ∧ s.durationMs = some c.duration)
    ∧ (∀ (station : Station) (songs : List Song) (rv now : Int) (st2 : Station)
          (songs2 : List Song) (res : SongRotationResult) (nd : StationNext)
          (cv : String),
        rotateSongTxn (some station) songs rv now = .ok (some (st2, songs2, res)) →
        station.next = some nd → nd.voteId = some cv →
        (∀ c, selectReadySongCandidate songs (some cv) = some c →
            res.nextVoteId = c.id ∧ res.nextStubbed = false)
        ∧ (selectReadySongCandidate songs (some cv) = none →
            res.nextVoteId = "stubbed" ∧ res.nextStubbed = true)) := by
  refine ⟨?_, fun songs cur c h => selectReady_inversion songs cur c h, ?_⟩
  · intro cur songs
    unfold selectReadySongCandidate
    exact selectFromDocs_eq_find cur (queryReadyDesc songs)
  · intro station songs rv now st2 songs2 res nd cv h hnext hcv
    obtain ⟨hsome, hnone⟩ :=
      rotateSongTxn_candidate_inversion station songs rv now st2 songs2 res nd cv
        h hnext hcv
    constructor
    · intro c hc
      obtain ⟨h1, h2, _, _⟩ := hsome c hc
      obtain ⟨hst, _⟩ := selectReady_inversion songs (some cv) c hc
      exact ⟨h1, by rw [h2, hst]⟩
    · intro hc
      obtain ⟨h1, h2, _⟩ := hnone hc
      exact ⟨h1, h2⟩

/-- Concrete instantiation of `candidate_selection_amended`: the selected candidate B is
a ready song with its durationMs, never stubbed. -/
theorem candidate_selection_amended_witness :
    (⟨"B", 120, false⟩ : Candidate).stubbed = false
    ∧ ∃ s, s ∈ ([⟨"B", some "ready", 5, some 120⟩] : List Song)
        ∧ s.status = some "ready" ∧ s.id = (⟨"B", 120, false⟩ : Candidate).id
        ∧ s.durationMs = some (⟨"B", 120, false⟩ : Candidate).duration :=
  candidate_selection_amended.2.1 [⟨"B", some "ready", 5, some 120⟩] none
    ⟨"B", 120, false⟩ (by decide)

theorem refreshNextSongTxn_inversion (station : Station) (songs : List Song)
    (out : RefreshOutcome) (st2 : Option Station) (songs2 : List Song)
    (h : refreshNextSongTxn (some station) songs = .ok (out, st2, songs2)) :
    ((station.next.getD ⟨none, none, none⟩).voteId ≠ some "stubbed" →
        st2 = some station ∧ songs2 = songs
        ∧ ∃ d, out = .noopNotStubbed (station.next.getD ⟨none, none, none⟩).voteId d
            (stationVersion station))
    ∧ ((station.next.getD ⟨none, none, none⟩).voteId = some "stubbed" →
        (∀ c, selectReadySongCandidate songs station.voteId = some c →
            out = .updated c.id c.duration (stationVersion station)
            ∧ st2 = some { station with
                next := some ⟨some c.id, some c.duration, some c.duration⟩ }
            ∧ songs2 = updateSongStatus songs c.id "queued")
        ∧ (selectReadySongCandidate songs station.voteId = none →
            out = .noopNoReady (some "stubbed") (stationVersion station)
            ∧ st2 = some station ∧ songs2 = songs)) := by
  unfold refreshNextSongTxn at h
  dsimp only at h
  by_cases hstub : (station.next.getD ⟨none, none, none⟩).voteId ≠ some "stubbed"
  · rw [if_pos hstub] at h
    refine ⟨?_, fun hc => absurd hc hstub⟩
    intro _
    cases hpy : pyOrInt (station.next.getD ⟨none, none, none⟩).durationMs
        (station.next.getD ⟨none, none, none⟩).duration with
    | none => rw [hpy] at h; cases h
    | some d =>
        rw [hpy] at h
        dsimp only at h
        simp only [Except.ok.injEq, Prod.mk.injEq] at h
        exact ⟨h.2.1.symm, h.2.2.symm, d, h.1.symm⟩
  · rw [if_neg hstub] at h
    have hstub2 := not_not.mp hstub
    refine ⟨fun hc => absurd hstub2 hc, fun _ => ?_⟩
    cases hsel : selectReadySongCandidate songs station.voteId with
    | none =>
        rw [hsel] at h
        dsimp only at h
        simp only [Except.ok.injEq, Prod.mk.injEq] at h
        refine ⟨fun c hc => Option.noConfusion hc, fun _ => ?_⟩
        rw [← hstub2]
        exact ⟨h.1.symm, h.2.1.symm, h.2.2.symm⟩
    | some c =>
        rw [hsel] at h
        dsimp only at h
        simp only [Except.ok.injEq, Prod.mk.injEq] at h
        refine ⟨?_, fun hc => Option.noConfusion hc⟩
        intro c2 hc2
        obtain rfl : c = c2 := by injection hc2
        exact ⟨h.1.symm, h.2.1.symm, h.2.2.symm⟩

theorem refreshNextSongTxn_preserves (station : Station) (songs : List Song)
    (out : RefreshOutcome) (st2 : Station) (songs2 : List Song)
    (h : refreshNextSongTxn (some station) songs = .ok (out, some st2, songs2)) :
    st2.version = station.version ∧ st2.voteId = station.voteId
    ∧ st2.startAt = station.startAt ∧ st2.endAt = station.endAt
    ∧ st2.durationMs = station.durationMs := by
  unfold refreshNextSongTxn at h
  dsimp only at h
  by_cases hstub : (station.next.getD ⟨none, none, none⟩).voteId ≠ some "stubbed"
  · rw [if_pos hstub] at h
    cases hpy : pyOrInt (station.next.getD ⟨none, none, none⟩).durationMs
        (station.next.getD ⟨none, none, none⟩).duration with
    | none => rw [hpy] at h; cases h
    | some d =>
        rw [hpy] at h
        dsimp only at h
        simp only [Except.ok.injEq, Prod.mk.injEq, Option.some.injEq] at h
        rw [← h.2.1]
        exact ⟨rfl, rfl, rfl, rfl, rfl⟩
  · rw [if_neg hstub] at h
    cases hsel : selectReadySongCandidate songs station.voteId with
    | none =>
        rw [hsel] at h
        dsimp only at h
        simp only [Except.ok.injEq, Prod.mk.injEq, Option.some.injEq] at h
        rw [← h.2.1]
        exact ⟨rfl, rfl, rfl, rfl, rfl⟩
    | some c =>
        rw [hsel] at h
        dsimp only at h
        simp only [Except.ok.injEq, Prod.mk.injEq, Option.some.injEq] at h
        rw [← h.2.1]
        exact ⟨rfl, rfl, rfl, rfl, rfl⟩

/-- C8 counterexample: (i) when next already holds the given song X, the refresh answers
{noop, next_not_stubbed}, not {already_set}; (ii) when next is stubbed, the refresh
ignores the given song X and its duration entirely and swaps next for the freshly
selected ready candidate Y instead. -/
theorem replaceNext_counterexample :
    refreshNextSong (some "X")
        (some ⟨some "cur", some 0, some 100, some 100, some 1,
               some ⟨some "X", none, some 180000⟩⟩) []
      = .ok (.noopNotStubbed (some "X") 180000 1,
             some ⟨some "cur", some 0, some 100, some 100, some 1,
                   some ⟨some "X", none, some 180000⟩⟩, [])
    ∧ refreshNextSong (some "X")
        (some ⟨some "cur", some 0, some 100, some 100, some 1,
               some ⟨some "stubbed", some 150000, some 150000⟩⟩)
        [⟨"Y", some "ready", 7, some 120⟩]
      = .ok (.updated "Y" 120 1,
             some ⟨some "cur", some 0, some 100, some 100, some 1,
                   some ⟨some "Y", some 120, some 120⟩⟩,
             [⟨"Y", some "queued", 7, some 120⟩]) := by
  constructor
  · rfl
  · rfl

/-- C8 amended: the refresh ignores the voteId and durationMs given in the request; it
swaps StationRecord.next if and only if the current next.voteId is the literal stubbed
id and a ready candidate exists, in which case the selected ready song (not the given
one) becomes next and is advanced to queued; when next is not stubbed — including when
it already equals the given song — it answers {noop, next_not_stubbed}; when next is
stubbed but no ready candidate exists it answers {noop, no_ready} and changes nothing;
and it never changes StationRecord.version, voteId or any timing field. -/
theorem replaceNext_amended :
    (∀ (p1 p2 : Option String) (stQ : Option Station) (songs : List Song),
        refreshNextSong p1 stQ songs = refreshNextSong p2 stQ songs)
    ∧ (∀ (station : Station) (songs : List Song) (out : RefreshOutcome)
          (st2 : Option Station) (songs2 : List Song),
        refreshNextSongTxn (some station) songs = .ok (out, st2, songs2) →
        ((station.next.getD ⟨none, none, none⟩).voteId ≠ some "stubbed" →
            st2 = some station ∧ songs2 = songs
            ∧ ∃ d, out = .noopNotStubbed (station.next.getD ⟨none, none, none⟩).voteId d
                (stationVersion station))
        ∧ ((station.next.getD ⟨none, none, none⟩).voteId = some "stubbed" →
            (∀ c, selectReadySongCandidate songs station.voteId = some c →
                out = .updated c.id c.duration (stationVersion station)
                ∧ st2 = some { station with
                    next := some ⟨some c.id, some c.duration, some c.duration⟩ }
                ∧ songs2 = updateSongStatus songs c.id "queued")
            ∧ (selectReadySongCandidate songs station.voteId = none →
                out = .noopNoReady (some "stubbed") (stationVersion station)
                ∧ st2 = some station ∧ songs2 = songs)))
    ∧ (∀ (station : Station) (songs : List Song) (out : RefreshOutcome)
          (st2 : Station) (songs2 : List Song),
        refreshNextSongTxn (some station) songs = .ok (out, some st2, songs2) →
        st2.version = station.version ∧ st2.voteId = station.voteId
        ∧ st2.startAt = station.startAt ∧ st2.endAt = station.endAt
        ∧ st2.durationMs = station.durationMs) := by
  refine ⟨fun p1 p2 stQ songs => rfl, ?_,
         fun station songs out st2 songs2 h =>
           refreshNextSongTxn_preserves station songs out st2 songs2 h⟩
  intro station songs out st2 songs2 h
  exact refreshNextSongTxn_inversion station songs out st2 songs2 h

/-- Concrete instantiation of `replaceNext_amended`: with next stubbed and ready song Y,
the refresh reports updated with Y, rewrites only the next block, and queues Y. -/
theorem replaceNext_amended_witness :
    RefreshOutcome.updated "Y" 120 1
      = RefreshOutcome.updated "Y" 120
          (stationVersion ⟨some "cur", some 0, some 100, some 100, some 1,
            some ⟨some "stubbed", some 150000, some 150000⟩⟩)
    ∧ (some ⟨some "cur", some 0, some 100, some 100, some 1,
             some ⟨some "Y", some 120, some 120⟩⟩ : Option Station)
      = some ⟨some "cur", some 0, some 100, some 100, some 1,
              some ⟨some "Y", some 120, some 120⟩⟩
    ∧ [⟨"Y", some "queued", 7, some 120⟩]
      = updateSongStatus [⟨"Y", some "ready", 7, some 120⟩] "Y" "queued" :=
  ((replaceNext_amended.2.1
    ⟨some "cur", some 0, some 100, some 100, some 1,
     some ⟨some "stubbed", some 150000, some 150000⟩⟩
    [⟨"Y", some "ready", 7, some 120⟩]
    (.updated "Y" 120 1)
    (some ⟨some "cur", some 0, some 100, some 100, some 1,
           some ⟨some "Y", some 120, some 120⟩⟩)
    [⟨"Y", some "queued", 7, some 120⟩]
    (by rfl)).2 (by rfl)).1 ⟨"Y", 120, false⟩ (by rfl)

/-- The SONG_CHANGED marker recorded by `StreamState.invalidate`. -/
structure InvalidatedRec where
  voteId : Option String
  ts : Int
  version : Option Int
deriving Repr, DecidableEq

/-- The VOTE_CLOSED marker recorded by `record_vote_closed`. -/
structure VoteClosedRec where
  voteId : Option String
  winnerOption : Option String
  ts : Int
deriving Repr, DecidableEq

/-- The NEXT-SONG-CHANGED marker recorded by `record_next_song_changed`. -/
structure NextChangedRec where
  voteId : Option String
  durationMs : Option Int
  version : Option Int
  ts : Int
deriving Repr, DecidableEq

/-- The slice of the shared per-process `StreamState` one loop iteration reads. -/
structure StreamShared where
  lastInvalidated : Option InvalidatedRec
  lastVoteClosed : Option VoteClosedRec
  lastNextSongChanged : Option NextChangedRec
deriving Repr, DecidableEq

/-- The `_LoopState` dataclass plus the per-connection markers map; monotonic-clock
values are modeled as integers. -/
structure LoopState where
  voteId : Option String
  lastTallies : List (String × Int)
  lastSnapshotAt : Int
  lastDeltaAt : Int
  lastHeartbeatAt : Int
  mInvalidatedAt : Int
  mVoteClosedAt : Int
  mNextChangedAt : Int
deriving Repr, DecidableEq

/-- An SSE frame emitted by the stream loop. -/
inductive SSEEvent where
  | songChanged (rec : InvalidatedRec)
  | voteClosed (rec : VoteClosedRec)
  | nextSongChanged (rec : NextChangedRec)
  | tallySnapshot (voteId : Option String) (tallies : List (String × Int))
      (status winner : Option String)
  | tallyDelta (voteId : Option String) (delta : List (String × Int))
      (listeners : Option Int)
  | heartbeat (voteId : Option String)
deriving Repr, DecidableEq

/-- First block of `_check_marker_events`: on a fresh SONG_CHANGED marker, bump the
marker, emit the frame, and when the freshly read Snapshot carries a poll voteId switch
the loop to it and reset the tally baseline and emission clocks. -/
def markerBlockInvalidated (sh : StreamShared) (snap : PlaybackSnapshot)
    (loop : LoopState) : List SSEEvent × LoopState :=
  match sh.lastInvalidated with
  | some inv =>
      if loop.mInvalidatedAt < inv.ts then
        let loopA := { loop with mInvalidatedAt := inv.ts }
        match snap.poll.voteId with
        | some nv =>
            ([.songChanged inv],
             { loopA with voteId := some nv, lastTallies := [],
                          lastSnapshotAt := 0, lastDeltaAt := 0 })
        | none => ([.songChanged inv], loopA)
      else ([], loop)
  | none => ([], loop)

/-- Second block of `_check_marker_events`: fresh VOTE_CLOSED marker. -/
def markerBlockVoteClosed (sh : StreamShared) (loop : LoopState) :
    List SSEEvent × LoopState :=
  match sh.lastVoteClosed with
  | some vc =>
      if loop.mVoteClosedAt < vc.ts then
        ([.voteClosed vc], { loop with mVoteClosedAt := vc.ts })
      else ([], loop)
  | none => ([], loop)

/-- Third block of `_check_marker_events`: fresh NEXT-SONG-CHANGED marker. -/
def markerBlockNextChanged (sh : StreamShared) (loop : LoopState) :
    List SSEEvent × LoopState :=
  match sh.lastNextSongChanged with
  | some nc =>
      if loop.mNextChangedAt < nc.ts then
        ([.nextSongChanged nc], { loop with mNextChangedAt := nc.ts })
      else ([], loop)
  | none => ([], loop)

/-- Embedding of `_check_marker_events`: the three marker blocks in program order. -/
def checkMarkerEvents (sh : StreamShared) (snap : PlaybackSnapshot) (loop : LoopState) :
    List SSEEvent × LoopState :=
  let a := markerBlockInvalidated sh snap loop
  let b := markerBlockVoteClosed sh a.2
  let c := markerBlockNextChanged sh b.2
  (a.1 ++ b.1 ++ c.1, c.2)

/-- Python `a or b` on optional strings (empty string is falsy). -/
def pyOrStr (a b : Option String) : Option String :=
  match a with
  | some s => if s = "" then b else some s
  | none => b

/-- The per-option delta map of `_check_timed_events`: new minus last per option in the
new tallies, plus an explicit 0 for options that disappeared. -/
def computeDeltas (tallies lastT : List (String × Int)) : List (String × Int) :=
  (tallies.map (fun p => (p.1, p.2 - ((lastT.lookup p.1).getD 0))))
    ++ ((lastT.filter (fun q => (tallies.lookup q.1).isNone)).map (fun q => (q.1, 0)))

/-- TALLY_SNAPSHOT block of `_check_timed_events`. `talliesOf` is the cached tally read
keyed by voteId; `pollStatus` / `pollWinner` are the poll fields of the Snapshot read in
this block and `winnerFor` is `StreamState.winner_for_vote`. -/
def timedSnapshotBlock (talliesOf : Option String → List (String × Int))
    (pollStatus pollWinner : Option String) (winnerFor : Option String → Option String)
    (snapshotIntervalSec now : Int) (loop : LoopState) : List SSEEvent × LoopState :=
  if snapshotIntervalSec ≤ now - loop.lastSnapshotAt then
    ([.tallySnapshot loop.voteId (talliesOf loop.voteId) pollStatus
        (pyOrStr pollWinner (winnerFor loop.voteId))],
     { loop with lastTallies := talliesOf loop.voteId, lastSnapshotAt := now })
  else ([], loop)

/-- TALLY_DELTA block of `_check_timed_events`. -/
def timedDeltaBlock (talliesOf : Option String → List (String × Int))
    (listeners : Option Int) (streamIntervalSec now : Int) (loop : LoopState) :
    List SSEEvent × LoopState :=
  if streamIntervalSec ≤ now - loop.lastDeltaAt then
    ([.tallyDelta loop.voteId (computeDeltas (talliesOf loop.voteId) loop.lastTallies)
        listeners],
     { loop with lastTallies := talliesOf loop.voteId, lastDeltaAt := now })
  else ([], loop)

/-- HEARTBEAT block of `_check_timed_events`. -/
def timedHeartbeatBlock (heartbeatSec now : Int) (loop : LoopState) :
    List SSEEvent × LoopState :=
  if heartbeatSec ≤ now - loop.lastHeartbeatAt then
    ([.heartbeat loop.voteId], { loop with lastHeartbeatAt := now })
  else ([], loop)

/-- Embedding of `_check_timed_events`: the three timed blocks in program order. -/
def checkTimedEvents (talliesOf : Option String → List (String × Int))
    (pollStatus pollWinner : Option String) (winnerFor : Option String → Option String)
    (listeners : Option Int) (snapshotIntervalSec streamIntervalSec heartbeatSec : Int)
    (now : Int) (loop : LoopState) : List SSEEvent × LoopState :=
  let a := timedSnapshotBlock talliesOf pollStatus pollWinner winnerFor
      snapshotIntervalSec now loop
  let b := timedDeltaBlock talliesOf listeners streamIntervalSec now a.2
  let c := timedHeartbeatBlock heartbeatSec now b.2
  (a.1 ++ b.1 ++ c.1, c.2)

/-- The reads one iteration of the `_event_stream` loop performs against the shared
process state (shared markers, Snapshot, cached tallies, listener count, clock). -/
structure IterEnv where
  shared : StreamShared
  snap : PlaybackSnapshot
  talliesOf : Option String → List (String × Int)
  pollStatus : Option String
  pollWinner : Option String
  winnerFor : Option String → Option String
  listeners : Option Int
  now : Int

/-- One iteration of the `_event_stream` while-loop: the marker-event check runs first,
then the timed emissions run on the updated loop state. -/
def streamIteration (env : IterEnv) (ivs : Int × Int × Int) (loop : LoopState) :
    List SSEEvent × LoopState :=
  let m := checkMarkerEvents env.shared env.snap loop
  let t := checkTimedEvents env.talliesOf env.pollStatus env.pollWinner env.winnerFor
      env.listeners ivs.1 ivs.2.1 ivs.2.2 env.now m.2
  (m.1 ++ t.1, t.2)

/-- Run successive loop iterations over a list of per-iteration environments,
concatenating the emitted frames. -/
def runIterations (ivs : Int × Int × Int) :
    List IterEnv → LoopState → List SSEEvent × LoopState
  | [], loop => ([], loop)
  | env :: rest, loop =>
      ((streamIteration env ivs loop).1
         ++ (runIterations ivs rest (streamIteration env ivs loop).2).1,
       (runIterations ivs rest (streamIteration env ivs loop).2).2)

theorem markerBlockVoteClosed_fields (sh : StreamShared) (loop : LoopState) :
    (markerBlockVoteClosed sh loop).2.voteId = loop.voteId
    ∧ (markerBlockVoteClosed sh loop).2.lastTallies = loop.lastTallies := by
  unfold markerBlockVoteClosed
  cases sh.lastVoteClosed with
  | none => exact ⟨rfl, rfl⟩
  | some vc =>
      dsimp only
      by_cases h : loop.mVoteClosedAt < vc.ts
      · rw [if_pos h]; exact ⟨rfl, rfl⟩
      · rw [if_neg h]; exact ⟨rfl, rfl⟩

theorem markerBlockNextChanged_fields (sh : StreamShared) (loop : LoopState) :
    (markerBlockNextChanged sh loop).2.voteId = loop.voteId
    ∧ (markerBlockNextChanged sh loop).2.lastTallies = loop.lastTallies := by
  unfold markerBlockNextChanged
  cases sh.lastNextSongChanged with
  | none => exact ⟨rfl, rfl⟩
  | some nc =>
      dsimp only
      by_cases h : loop.mNextChangedAt < nc.ts
      · rw [if_pos h]; exact ⟨rfl, rfl⟩
      · rw [if_neg h]; exact ⟨rfl, rfl⟩

theorem markerBlockInvalidated_no_delta (sh : StreamShared) (snap : PlaybackSnapshot)
    (loop : LoopState) (v : Option String) (d : List (String × Int))
    (li : Option Int) : SSEEvent.tallyDelta v d li ∉ (markerBlockInvalidated sh snap loop).1 := by
  unfold markerBlockInvalidated
  cases sh.lastInvalidated with
  | none => simp
  | some inv =>
      dsimp only
      by_cases h : loop.mInvalidatedAt < inv.ts
      · rw [if_pos h]
        cases snap.poll.voteId with
        | none => simp
        | some nv => simp
      · rw [if_neg h]; simp

theorem markerBlockVoteClosed_no_delta (sh : StreamShared) (loop : LoopState)
    (v : Option String) (d : List (String × Int)) (li : Option Int) :
    SSEEvent.tallyDelta v d li ∉ (markerBlockVoteClosed sh loop).1 := by
  unfold markerBlockVoteClosed
  cases sh.lastVoteClosed with
  | none => simp
  | some vc =>
      dsimp only
      by_cases h : loop.mVoteClosedAt < vc.ts
      · rw [if_pos h]; simp
      · rw [if_neg h]; simp

theorem markerBlockNextChanged_no_delta (sh : StreamShared) (loop : LoopState)
    (v : Option String) (d : List (String × Int)) (li : Option Int) :
    SSEEvent.tallyDelta v d li ∉ (markerBlockNextChanged sh loop).1 := by
  unfold markerBlockNextChanged
  cases sh.lastNextSongChanged with
  | none => simp
  | some nc =>
      dsimp only
      by_cases h : loop.mNextChangedAt < nc.ts
      · rw [if_pos h]; simp
      · rw [if_neg h]; simp

theorem markerBlockInvalidated_voteId_cases (sh : StreamShared)
    (snap : PlaybackSnapshot) (loop : LoopState) :
    (markerBlockInvalidated sh snap loop).2.voteId = loop.voteId
    ∨ ∃ nv, snap.poll.voteId = some nv
        ∧ (markerBlockInvalidated sh snap loop).2.voteId = some nv := by
  unfold markerBlockInvalidated
  cases sh.lastInvalidated with
  | none => left; rfl
  | some inv =>
      dsimp only
      by_cases h : loop.mInvalidatedAt < inv.ts
      · rw [if_pos h]
        cases hnv : snap.poll.voteId with
        | none => left; rfl
        | some nv => right; exact ⟨nv, rfl, rfl⟩
      · rw [if_neg h]; left; rfl

theorem markerBlockInvalidated_fired (sh : StreamShared) (snap : PlaybackSnapshot)
    (loop : LoopState) (inv : InvalidatedRec) (nv : String)
    (h1 : sh.lastInvalidated = some inv) (h2 : loop.mInvalidatedAt < inv.ts)
    (h3 : snap.poll.voteId = some nv) :
    (markerBlockInvalidated sh snap loop).1 = [.songChanged inv]
    ∧ (markerBlockInvalidated sh snap loop).2.voteId = some nv
    ∧ (markerBlockInvalidated sh snap loop).2.lastTallies = [] := by
  unfold markerBlockInvalidated
  rw [h1]
  dsimp only
  rw [if_pos h2, h3]
  exact ⟨rfl, rfl, rfl⟩

theorem checkMarkerEvents_no_delta (sh : StreamShared) (snap : PlaybackSnapshot)
    (loop : LoopState) (v : Option String) (d : List (String × Int)) (li : Option Int) :
    SSEEvent.tallyDelta v d li ∉ (checkMarkerEvents sh snap loop).1 := by
  unfold checkMarkerEvents
  dsimp only
  intro hmem
  rcases List.mem_append.mp hmem with hmem | hmem
  · rcases List.mem_append.mp hmem with hmem | hmem
    · exact markerBlockInvalidated_no_delta sh snap loop v d li hmem
    · exact markerBlockVoteClosed_no_delta sh _ v d li hmem
  · exact markerBlockNextChanged_no_delta sh _ v d li hmem

theorem checkMarkerEvents_voteId_cases (sh : StreamShared) (snap : PlaybackSnapshot)
    (loop : LoopState) :
    (checkMarkerEvents sh snap loop).2.voteId = loop.voteId
    ∨ ∃ nv, snap.poll.voteId = some nv
        ∧ (checkMarkerEvents sh snap loop).2.voteId = some nv := by
  unfold checkMarkerEvents
  dsimp only
  rw [(markerBlockNextChanged_fields sh _).1, (markerBlockVoteClosed_fields sh _).1]
  exact markerBlockInvalidated_voteId_cases sh snap loop

theorem checkMarkerEvents_fired (sh : StreamShared) (snap : PlaybackSnapshot)
    (loop : LoopState) (inv : InvalidatedRec) (nv : String)
    (h1 : sh.lastInvalidated = some inv) (h2 : loop.mInvalidatedAt < inv.ts)
    (h3 : snap.poll.voteId = some nv) :
    SSEEvent.songChanged inv ∈ (checkMarkerEvents sh snap loop).1
    ∧ (checkMarkerEvents sh snap loop).2.voteId = some nv
    ∧ (checkMarkerEvents sh snap loop).2.lastTallies = [] := by
  obtain ⟨he, hv, ht⟩ := markerBlockInvalidated_fired sh snap loop inv nv h1 h2 h3
  unfold checkMarkerEvents
  dsimp only
  refine ⟨?_, ?_, ?_⟩
  · rw [he]
    exact List.mem_append.mpr
      (Or.inl (List.mem_append.mpr (Or.inl (List.mem_singleton.mpr rfl))))
  · rw [(markerBlockNextChanged_fields sh _).1, (markerBlockVoteClosed_fields sh _).1]
    exact hv
  · rw [(markerBlockNextChanged_fields sh _).2, (markerBlockVoteClosed_fields sh _).2]
    exact ht

theorem timedSnapshotBlock_no_song (talliesOf : Option String → List (String × Int))
    (ps pw : Option String) (wf : Option String → Option String) (si now : Int)
    (loop : LoopState) (rec : InvalidatedRec) :
    SSEEvent.songChanged rec ∉ (timedSnapshotBlock talliesOf ps pw wf si now loop).1 := by
  unfold timedSnapshotBlock
  by_cases h : si ≤ now - loop.lastSnapshotAt
  · rw [if_pos h]; simp
  · rw [if_neg h]; simp

theorem timedSnapshotBlock_no_delta (talliesOf : Option String → List (String × Int))
    (ps pw : Option String) (wf : Option String → Option String) (si now : Int)
    (loop : LoopState) (v : Option String) (d : List (String × Int)) (li : Option Int) :
    SSEEvent.tallyDelta v d li ∉ (timedSnapshotBlock talliesOf ps pw wf si now loop).1 := by
  unfold timedSnapshotBlock
  by_cases h : si ≤ now - loop.lastSnapshotAt
  · rw [if_pos h]; simp
  · rw [if_neg h]; simp

theorem timedSnapshotBlock_voteId (talliesOf : Option String → List (String × Int))
    (ps pw : Option String) (wf : Option String → Option String) (si now : Int)
    (loop : LoopState) :
    (timedSnapshotBlock talliesOf ps pw wf si now loop).2.voteId = loop.voteId := by
  unfold timedSnapshotBlock
  by_cases h : si ≤ now - loop.lastSnapshotAt
  · rw [if_pos h]
  · rw [if_neg h]

theorem timedDeltaBlock_no_song (talliesOf : Option String → List (String × Int))
    (li : Option Int) (si now : Int) (loop : LoopState) (rec : InvalidatedRec) :
    SSEEvent.songChanged rec ∉ (timedDeltaBlock talliesOf li si now loop).1 := by
  unfold timedDeltaBlock
  by_cases h : si ≤ now - loop.lastDeltaAt
  · rw [if_pos h]; simp
  · rw [if_neg h]; simp

theorem timedDeltaBlock_delta_voteId (talliesOf : Option String → List (String × Int))
    (lis : Option Int) (si now : Int) (loop : LoopState) (v : Option String)
    (d : List (String × Int)) (li : Option Int)
    (hmem : SSEEvent.tallyDelta v d li ∈ (timedDeltaBlock talliesOf lis si now loop).1) :
    v = loop.voteId := by
  unfold timedDeltaBlock at hmem
  by_cases h : si ≤ now - loop.lastDeltaAt
  · rw [if_pos h] at hmem
    have h2 := List.mem_singleton.mp hmem
    injection h2 with h1 h2 h3
  · rw [if_neg h] at hmem
    simp at hmem

theorem timedDeltaBlock_voteId (talliesOf : Option String → List (String × Int))
    (li : Option Int) (si now : Int) (loop : LoopState) :
    (timedDeltaBlock talliesOf li si now loop).2.voteId = loop.voteId := by
  unfold timedDeltaBlock
  by_cases h : si ≤ now - loop.lastDeltaAt
  · rw [if_pos h]
  · rw [if_neg h]

theorem timedHeartbeatBlock_no_song (hb now : Int) (loop : LoopState)
    (rec : InvalidatedRec) :
    SSEEvent.songChanged rec ∉ (timedHeartbeatBlock hb now loop).1 := by
  unfold timedHeartbeatBlock
  by_cases h : hb ≤ now - loop.lastHeartbeatAt
  · rw [if_pos h]; simp
  · rw [if_neg h]; simp

theorem timedHeartbeatBlock_no_delta (hb now : Int) (loop : LoopState)
    (v : Option String) (d : List (String × Int)) (li : Option Int) :
    SSEEvent.tallyDelta v d li ∉ (timedHeartbeatBlock hb now loop).1 := by
  unfold timedHeartbeatBlock
  by_cases h : hb ≤ now - loop.lastHeartbeatAt
  · rw [if_pos h]; simp
  · rw [if_neg h]; simp

theorem timedHeartbeatBlock_voteId (hb now : Int) (loop : LoopState) :
    (timedHeartbeatBlock hb now loop).2.voteId = loop.voteId := by
  unfold timedHeartbeatBlock
  by_cases h : hb ≤ now - loop.lastHeartbeatAt
  · rw [if_pos h]
  · rw [if_neg h]

theorem checkTimedEvents_no_song (talliesOf : Option String → List (String × Int))
    (ps pw : Option String) (wf : Option String → Option String) (lis : Option Int)
    (si st hb now : Int) (loop : LoopState) (rec : InvalidatedRec) :
    SSEEvent.songChanged rec
      ∉ (checkTimedEvents talliesOf ps pw wf lis si st hb now loop).1 := by
  unfold checkTimedEvents
  dsimp only
  intro hmem
  rcases List.mem_append.mp hmem with hmem | hmem
  · rcases List.mem_append.mp hmem with hmem | hmem
    · exact timedSnapshotBlock_no_song talliesOf ps pw wf si now loop rec hmem
    · exact timedDeltaBlock_no_song talliesOf lis st now _ rec hmem
  · exact timedHeartbeatBlock_no_song hb now _ rec hmem

theorem checkTimedEvents_delta_voteId (talliesOf : Option String → List (String × Int))
    (ps pw : Option String) (wf : Option String → Option String) (lis : Option Int)
    (si st hb now : Int) (loop : LoopState) (v : Option String)
    (d : List (String × Int)) (li : Option Int)
    (hmem : SSEEvent.tallyDelta v d li
        ∈ (checkTimedEvents talliesOf ps pw wf lis si st hb now loop).1) :
    v = loop.voteId := by
  unfold checkTimedEvents at hmem
  dsimp only at hmem
  rcases List.mem_append.mp hmem with hmem | hmem
  · rcases List.mem_append.mp hmem with hmem | hmem
    · exact absurd hmem (timedSnapshotBlock_no_delta talliesOf ps pw wf si now loop v d li)
    · rw [timedDeltaBlock_delta_voteId talliesOf lis st now _ v d li hmem]
      exact timedSnapshotBlock_voteId talliesOf ps pw wf si now loop
  · exact absurd hmem (timedHeartbeatBlock_no_delta hb now _ v d li)

theorem checkTimedEvents_voteId (talliesOf : Option String → List (String × Int))
    (ps pw : Option String) (wf : Option String → Option String) (lis : Option Int)
    (si st hb now : Int) (loop : LoopState) :
    (checkTimedEvents talliesOf ps pw wf lis si st hb now loop).2.voteId
      = loop.voteId := by
  unfold checkTimedEvents
  dsimp only
  rw [timedHeartbeatBlock_voteId, timedDeltaBlock_voteId, timedSnapshotBlock_voteId]

theorem streamIteration_delta_voteId (env : IterEnv) (ivs : Int × Int × Int)
    (loop : LoopState) (v : Option String) (d : List (String × Int)) (li : Option Int)
    (hmem : SSEEvent.tallyDelta v d li ∈ (streamIteration env ivs loop).1) :
    v = (checkMarkerEvents env.shared env.snap loop).2.voteId := by
  unfold streamIteration at hmem
  dsimp only at hmem
  rcases List.mem_append.mp hmem with hmem | hmem
  · exact absurd hmem (checkMarkerEvents_no_delta env.shared env.snap loop v d li)
  · rw [checkTimedEvents_delta_voteId env.talliesOf env.pollStatus env.pollWinner
        env.winnerFor env.listeners ivs.1 ivs.2.1 ivs.2.2 env.now _ v d li hmem]

theorem streamIteration_voteId_cases (env : IterEnv) (ivs : Int × Int × Int)
    (loop : LoopState) :
    (streamIteration env ivs loop).2.voteId = loop.voteId
    ∨ ∃ nv, env.snap.poll.voteId = some nv
        ∧ (streamIteration env ivs loop).2.voteId = some nv := by
  unfold streamIteration
  dsimp only
  rw [checkTimedEvents_voteId]
  exact checkMarkerEvents_voteId_cases env.shared env.snap loop

theorem runIterations_no_old_delta (ivs : Int × Int × Int) (oldV : String) :
    ∀ (envs : List IterEnv) (loop : LoopState), loop.voteId ≠ some oldV →
      (∀ env ∈ envs, env.snap.poll.voteId ≠ some oldV) →
      ∀ (v : Option String) (d : List (String × Int)) (li : Option Int),
        SSEEvent.tallyDelta v d li ∈ (runIterations ivs envs loop).1 →
        v ≠ some oldV := by
  intro envs
  induction envs with
  | nil =>
      intro loop _ _ v d li hmem
      simp [runIterations] at hmem
  | cons env rest ih =>
      intro loop hloop hen554 v d li hmem
      have henv : env.snap.poll.voteId ≠ some oldV :=
        hen554 env (List.mem_cons_self env rest)
      have hrest : ∀ e ∈ rest, e.snap.poll.voteId ≠ some oldV :=
        fun e he => hen554 e (List.mem_cons_of_mem env he)
      rw [runIterations] at hmem
      rcases List.mem_append.mp hmem with hmem | hmem
      · have hv := streamIteration_delta_voteId env ivs loop v d li hmem
        rcases checkMarkerEvents_voteId_cases env.shared env.snap loop with hc | ⟨nv, hnv, hc⟩
        · rw [hv, hc]; exact hloop
        · rw [hv, hc]
          intro hcon
          exact henv (by rw [hnv, hcon])
      · have hnext : (streamIteration env ivs loop).2.voteId ≠ some oldV := by
          rcases streamIteration_voteId_cases env ivs loop with hc | ⟨nv, hnv, hc⟩
          · rw [hc]; exact hloop
          · rw [hc]
            intro hcon
            exact henv (by rw [hnv, hcon])
        exact ih (streamIteration env ivs loop).2 hnext hrest v d li hmem

/-- C9: on one SSE connection, each loop iteration runs the marker-event check before
any tally emission — the iteration's frames are the marker frames (which contain no
TALLY_DELTA) followed by the timed frames (which contain no SONG_CHANGED); when the
SONG_CHANGED marker fires and the freshly read Snapshot carries the new poll's voteId,
the loop switches to it and resets the tally baseline, so every TALLY_DELTA of that same
iteration already carries the new voteId; and over any run whose loop has left the old
voteId and whose later snapshots never carry it again (polls get fresh ids), no emitted
TALLY_DELTA carries the old poll's voteId. -/
theorem sse_marker_check_before_deltas :
    (∀ (env : IterEnv) (ivs : Int × Int × Int) (loop : LoopState),
        (streamIteration env ivs loop).1
          = (checkMarkerEvents env.shared env.snap loop).1
            ++ (checkTimedEvents env.talliesOf env.pollStatus env.pollWinner
                  env.winnerFor env.listeners ivs.1 ivs.2.1 ivs.2.2 env.now
                  (checkMarkerEvents env.shared env.snap loop).2).1
        ∧ (∀ (v : Option String) (d : List (String × Int)) (li : Option Int),
            SSEEvent.tallyDelta v d li ∉ (checkMarkerEvents env.shared env.snap loop).1)
        ∧ (∀ rec : InvalidatedRec,
            SSEEvent.songChanged rec
              ∉ (checkTimedEvents env.talliesOf env.pollStatus env.pollWinner
                  env.winnerFor env.listeners ivs.1 ivs.2.1 ivs.2.2 env.now
                  (checkMarkerEvents env.shared env.snap loop).2).1)
        ∧ (∀ (v : Option String) (d : List (String × Int)) (li : Option Int),
            SSEEvent.tallyDelta v d li ∈ (streamIteration env ivs loop).1 →
            v = (checkMarkerEvents env.shared env.snap loop).2.voteId))
    ∧ (∀ (env : IterEnv) (ivs : Int × Int × Int) (loop : LoopState)
          (inv : InvalidatedRec) (nv : String),
        env.shared.lastInvalidated = some inv → loop.mInvalidatedAt < inv.ts →
        env.snap.poll.voteId = some nv →
        SSEEvent.songChanged inv ∈ (streamIteration env ivs loop).1
        ∧ (checkMarkerEvents env.shared env.snap loop).2.voteId = some nv
        ∧ (checkMarkerEvents env.shared env.snap loop).2.lastTallies = []
        ∧ ∀ (v : Option String) (d : List (String × Int)) (li : Option Int),
            SSEEvent.tallyDelta v d li ∈ (streamIteration env ivs loop).1 → v = some nv)
    ∧ (∀ (ivs : Int × Int × Int) (envs : List IterEnv) (loop : LoopState)
          (oldV : String),
        loop.voteId ≠ some oldV →
        (∀ env ∈ envs, env.snap.poll.voteId ≠ some oldV) →
        ∀ (v : Option String) (d : List (String × Int)) (li : Option Int),
          SSEEvent.tallyDelta v d li ∈ (runIterations ivs envs loop).1 →
          v ≠ some oldV) := by
  refine ⟨?_, ?_,
         fun ivs envs loop oldV h1 h2 => runIterations_no_old_delta ivs oldV envs loop h1 h2⟩
  · intro env ivs loop
    exact ⟨rfl,
      fun v d li => checkMarkerEvents_no_delta env.shared env.snap loop v d li,
      fun rec => checkTimedEvents_no_song env.talliesOf env.pollStatus env.pollWinner
        env.winnerFor env.listeners ivs.1 ivs.2.1 ivs.2.2 env.now _ rec,
      fun v d li hmem => streamIteration_delta_voteId env ivs loop v d li hmem⟩
  · intro env ivs loop inv nv h1 h2 h3
    obtain ⟨hmem, hv, ht⟩ := checkMarkerEvents_fired env.shared env.snap loop inv nv h1 h2 h3
    refine ⟨?_, hv, ht, ?_⟩
    · unfold streamIteration
      dsimp only
      exact List.mem_append.mpr (Or.inl hmem)
    · intro v d li hd
      rw [streamIteration_delta_voteId env ivs loop v d li hd, hv]

/-- Concrete instantiation of `sse_marker_check_before_deltas`: a fresh SONG_CHANGED
marker for poll v2 fires on a loop still at v1; the frame is emitted, the loop switches
to v2 with an empty tally baseline, and any TALLY_DELTA of the iteration carries v2. -/
theorem sse_marker_check_before_deltas_witness :
    SSEEvent.songChanged ⟨some "v2", 100, some 2⟩
      ∈ (streamIteration
          ⟨⟨some ⟨some "v2", 100, some 2⟩, none, none⟩,
           ⟨⟨some "s1", some 0, some 150000, some 150000⟩, ⟨some "stubbed", some 150000⟩,
            ⟨some "v2", ["a"], some 2, some "OPEN", some 90000⟩⟩,
           fun _ => [], some "OPEN", none, fun _ => none, some 0, 100⟩
          (10, 1, 15) ⟨some "v1", [("a", 1)], 0, 0, 0, 0, 0, 0⟩).1
    ∧ (checkMarkerEvents ⟨some ⟨some "v2", 100, some 2⟩, none, none⟩
        ⟨⟨some "s1", some 0, some 150000, some 150000⟩, ⟨some "stubbed", some 150000⟩,
         ⟨some "v2", ["a"], some 2, some "OPEN", some 90000⟩⟩
        ⟨some "v1", [("a", 1)], 0, 0, 0, 0, 0, 0⟩).2.voteId = some "v2"
    ∧ (checkMarkerEvents ⟨some ⟨some "v2", 100, some 2⟩, none, none⟩
        ⟨⟨some "s1", some 0, some 150000, some 150000⟩, ⟨some "stubbed", some 150000⟩,
         ⟨some "v2", ["a"], some 2, some "OPEN", some 90000⟩⟩
        ⟨some "v1", [("a", 1)], 0, 0, 0, 0, 0, 0⟩).2.lastTallies = []
    ∧ ∀ (v : Option String) (d : List (String × Int)) (li : Option Int),
        SSEEvent.tallyDelta v d li
          ∈ (streamIteration
              ⟨⟨some ⟨some "v2", 100, some 2⟩, none, none⟩,
               ⟨⟨some "s1", some 0, some 150000, some 150000⟩,
                ⟨some "stubbed", some 150000⟩,
                ⟨some "v2", ["a"], some 2, some "OPEN", some 90000⟩⟩,
               fun _ => [], some "OPEN", none, fun _ => none, some 0, 100⟩
              (10, 1, 15) ⟨some "v1", [("a", 1)], 0, 0, 0, 0, 0, 0⟩).1 →
        v = some "v2" :=
  sse_marker_check_before_deltas.2.1
    ⟨⟨some ⟨some "v2", 100, some 2⟩, none, none⟩,
     ⟨⟨some "s1", some 0, some 150000, some 150000⟩, ⟨some "stubbed", some 150000⟩,
      ⟨some "v2", ["a"], some 2, some "OPEN", some 90000⟩⟩,
     fun _ => [], some "OPEN", none, fun _ => none, some 0, 100⟩
    (10, 1, 15) ⟨some "v1", [("a", 1)], 0, 0, 0, 0, 0, 0⟩
    ⟨some "v2", 100, some 2⟩ "v2" rfl (by decide) rfl
